import Mathlib

/-!
Shallow embedding of the Homelike client-resident commerce state engine
(`src/App.tsx`): catalog, profiles, cart, order composition, receipt
formatting and persistence, together with proofs of the specified
properties.

Conventions of the embedding:
* JavaScript numbers that can be non-finite or fractional are modelled by
  `JSNum` (`nonFinite`, or a rational).  Integral amounts (prices, totals)
  are `Int`; coerced cart quantities are `Nat` as produced by
  `Math.max(0, Math.floor value)`.
* A JavaScript string-keyed object is modelled as an association list in
  insertion order; `\x7b...prev, [id]: v\x7d` updates in place or appends,
  key removal keeps the other entries in order.
* Optional record fields (`T | undefined`) are `Option`.
* Wall-clock reads (`Date.now()`) are explicit `now : Nat` parameters,
  and ISO timestamps explicit `String` parameters.
-/

namespace Homelike

/-- JavaScript number input as seen by `handleQuantityChange`: either not
finite (NaN or an infinity) or an exact rational value. -/
inductive JSNum where
  | nonFinite : JSNum
  | num : ℚ → JSNum
deriving Repr, DecidableEq

/-- Heat levels of the `HeatLevel` union type. -/
inductive HeatLevel where
  | Mild | Medium | Hot
deriving Repr, DecidableEq

/-- Payment methods of the `PaymentMethod` union type. -/
inductive PaymentMethod where
  | UPI | CashOnDelivery | Card
deriving Repr, DecidableEq

/-- String rendering of a payment method, as interpolated into the
receipt body (`Payment method: ${order.paymentMethod}`). -/
def PaymentMethod.render : PaymentMethod → String
  | .UPI => "UPI"
  | .CashOnDelivery => "Cash on Delivery"
  | .Card => "Card"

/-- The `Spice` interface: a catalog product. -/
structure Spice where
  id : String
  name : String
  description : String
  notes : Option String := none
  price : Int
  unit : String
  heat : HeatLevel
  origin : Option String := none
  isNew : Option Bool := none
  isSignature : Option Bool := none
  colorClass : String
  imageDataUrl : Option String := none
deriving Repr, DecidableEq

/-- The `AdminConfig` interface. -/
structure AdminConfig where
  adminEmail : String
  brandTagline : String
  supportPhone : Option String := none
  upiId : Option String := none
  city : Option String := none
  minimumOrderNote : Option String := none
deriving Repr, DecidableEq

/-- The `User` interface: a saved customer profile. -/
structure User where
  id : String
  name : String
  email : String
  phone : Option String := none
  address : Option String := none
  city : Option String := none
  postalCode : Option String := none
deriving Repr, DecidableEq

/-- The `OrderItem` interface: a snapshotted order line. -/
structure OrderItem where
  spiceId : String
  name : String
  quantity : Nat
  unitPrice : Int
  subtotal : Int
deriving Repr, DecidableEq

/-- The `Order` interface: an immutable committed order. -/
structure Order where
  id : String
  createdAt : String
  customerName : String
  customerEmail : String
  customerPhone : Option String := none
  customerAddress : Option String := none
  customerCity : Option String := none
  customerPostalCode : Option String := none
  note : Option String := none
  paymentMethod : PaymentMethod
  items : List OrderItem
  total : Int
  userId : Option String := none
deriving Repr, DecidableEq

/-- The JavaScript `String.prototype.trim()`: strip leading and
trailing whitespace (character-list implementation so that proofs can
evaluate it). -/
def jsTrim (s : String) : String :=
  ⟨((s.data.dropWhile Char.isWhitespace).reverse.dropWhile Char.isWhitespace).reverse⟩

/-- The JavaScript `String.prototype.toLowerCase()` on the ASCII range
(character-list implementation so that proofs can evaluate it). -/
def jsToLower (s : String) : String :=
  ⟨s.data.map Char.toLower⟩

/-- Helper for the TypeScript idiom `s.trim() || undefined`: a blank
string becomes `none`, otherwise the trimmed string is kept. -/
def trimOpt (s : String) : Option String :=
  if jsTrim s = "" then none else some (jsTrim s)

/-- The cart: a JavaScript object mapping product id to quantity,
modelled as an association list in insertion order. -/
abbrev Cart := List (String × Nat)

/-- Read `quantities[id] ?? 0`. -/
def lookupQty (cart : Cart) (id : String) : Nat :=
  match cart.find? (fun kv => kv.1 = id) with
  | some kv => kv.2
  | none => 0

/-- Coercion performed by `handleQuantityChange`:
`Number.isFinite(value) ? Math.max(0, Math.floor(value)) : 0`. -/
def coerceQty : JSNum → Nat
  | .nonFinite => 0
  | .num q => (max 0 ⌊q⌋).toNat

/-- The `handleQuantityChange` state update on the quantities object:
a coerced value of 0 removes the key, otherwise the key is set
(updated in place when present, appended when new). -/
def handleQuantityChange (cart : Cart) (spiceId : String) (value : JSNum) : Cart :=
  let safe := coerceQty value
  if safe = 0 then
    cart.filter (fun kv => kv.1 ≠ spiceId)
  else if cart.any (fun kv => kv.1 = spiceId) then
    cart.map (fun kv => if kv.1 = spiceId then (spiceId, safe) else kv)
  else
    cart ++ [(spiceId, safe)]

/-- The derived read `estimatedTotal`: a fold over the catalog summing
`spice.price * (quantities[spice.id] ?? 0)`. -/
def estimatedTotal (spices : List Spice) (cart : Cart) : Int :=
  spices.foldl (fun sum spice => sum + spice.price * (lookupQty cart spice.id : Int)) 0

/-- The derived read `hasSelection`:
`Object.values(quantities).some((q) => q > 0)`. -/
def hasSelection (cart : Cart) : Bool :=
  cart.any (fun kv => kv.2 > 0)

/-- Digit-pair grouping used by the Indian numbering system for every
group above the lowest three digits (input and output are reversed
digit lists). -/
def pairGroups : List Char → List Char
  | [] => []
  | [a] => [a]
  | [a, b] => [a, b]
  | a :: b :: rest => a :: b :: ',' :: pairGroups rest

/-- en-IN grouping of a digit string: the last three digits form one
group, the remaining digits are grouped in pairs. -/
def inrGroup (digits : List Char) : List Char :=
  let r := digits.reverse
  if r.length ≤ 3 then digits
  else ((r.take 3) ++ [','] ++ pairGroups (r.drop 3)).reverse

/-- The `formatINR` helper: `toLocaleString("en-IN")` with INR currency
style and no fractional digits, on amounts that are already integral. -/
def formatINR (amount : Int) : String :=
  if amount < 0 then
    "-₹" ++ String.mk (inrGroup (toString (-amount)).data)
  else
    "₹" ++ String.mk (inrGroup (toString amount).data)

/-- The mutable state of the `App` component that the engine operations
read and write (rendering-only state omitted). -/
structure AppState where
  adminConfig : AdminConfig
  spices : List Spice
  users : List User := []
  currentUserId : Option String := none
  orders : List Order := []
  quantities : Cart := []
  paymentMethod : PaymentMethod := .UPI
  orderName : String := ""
  orderEmail : String := ""
  orderPhone : String := ""
  orderAddress : String := ""
  orderCity : String := ""
  orderPostalCode : String := ""
  orderNote : String := ""
  orderStatus : Option String := none
  orderError : Option String := none
  profileStatus : Option String := none
deriving Repr, DecidableEq

/-- The `base` record assembled by `handleSaveProfile`: the trimmed
form fields under the given identifier (the existing profile's id, or
the fresh time-derived one). -/
def savedProfileUser (id : String) (s : AppState) : User :=
  { id := id
    name := jsTrim s.orderName
    email := jsTrim s.orderEmail
    phone := trimOpt s.orderPhone
    address := trimOpt s.orderAddress
    city := trimOpt s.orderCity
    postalCode := trimOpt s.orderPostalCode }

/-- The `handleSaveProfile` handler: validates name and email, upserts
into `users` keyed by case-insensitive email, and points
`currentUserId` at the saved profile.  The handler first clears
`profileStatus` and then sets it; each branch carries its final
value. -/
def handleSaveProfile (now : Nat) (s : AppState) : AppState :=
  if jsTrim s.orderName = "" ∨ jsTrim s.orderEmail = "" then
    { s with profileStatus := some "Add at least name and email before saving as a profile." }
  else
    match s.users.find? (fun u => jsToLower u.email = jsToLower (jsTrim s.orderEmail)) with
    | some ex =>
      { s with
        users := s.users.map (fun u => if u.id = ex.id then savedProfileUser ex.id s else u)
        currentUserId := some ex.id
        profileStatus := some "Updated your saved profile." }
    | none =>
      { s with
        users := s.users ++ [savedProfileUser ("user-" ++ toString now) s]
        currentUserId := some ("user-" ++ toString now)
        profileStatus := some "Saved a new profile in this browser." }

/-- Replacement of the contact form fields of a state: models the user
editing the order form between two operations. -/
def withContactForm (s : AppState) (n e p a c pc : String) : AppState :=
  { s with
    orderName := n
    orderEmail := e
    orderPhone := p
    orderAddress := a
    orderCity := c
    orderPostalCode := pc }

/-- One outbound hand-off message to the external mail composer, with
the three fields of the mailto construction. -/
structure MailMessage where
  recipient : String
  subject : String
  body : String
deriving Repr, DecidableEq

/-- Receipt line items text: one `- name xqty @ unit = subtotal` line
per item, newline-joined. -/
def orderLineItemsText (items : List OrderItem) : String :=
  String.intercalate "\n" (items.map (fun item =>
    "- " ++ item.name ++ " x" ++ toString item.quantity ++ " @ " ++
      formatINR item.unitPrice ++ " = " ++ formatINR item.subtotal))

/-- The `addressLines` array of `handlePlaceOrder`: the street address
when present, then — when city or postal code is present — the
space-joined, trimmed `city postal` text. -/
def orderAddressLines (order : Order) : List String :=
  (match order.customerAddress with | some a => [a] | none => []) ++
  (if order.customerCity.isSome ∨ order.customerPostalCode.isSome then
    [jsTrim ((order.customerCity.getD "") ++ " " ++ (order.customerPostalCode.getD ""))]
  else [])

/-- The `bodyLines` array of `handlePlaceOrder`: the full ordered
receipt text lines for an order. -/
def orderBodyLines (order : Order) : List String :=
  ["New Homelike order: " ++ order.id,
   "",
   "Customer: " ++ order.customerName,
   "Email: " ++ order.customerEmail]
  ++ (match order.customerPhone with | some p => ["Phone: " ++ p] | none => [])
  ++ (if orderAddressLines order ≠ [] then
        ["Address: " ++ String.intercalate ", " (orderAddressLines order)]
      else [])
  ++ ["", "Items:", orderLineItemsText order.items, ""]
  ++ ["Total: " ++ formatINR order.total,
      "Payment method: " ++ order.paymentMethod.render]
  ++ (match order.note with | some n => ["", "Customer note: " ++ n] | none => [])
  ++ ["", "This order was placed from the Homelike startup site."]

/-- The `selected` array of `handlePlaceOrder`: catalog entries paired
with their cart quantity, keeping those with quantity above 0. -/
def selectedEntries (s : AppState) : List (Spice × Nat) :=
  (s.spices.map (fun spice => (spice, lookupQty s.quantities spice.id))).filter
    (fun x => x.2 > 0)

/-- The `items` array of `handlePlaceOrder`: one `OrderItem` per
selected entry, with name and price snapshotted from the catalog. -/
def composedItems (s : AppState) : List OrderItem :=
  (selectedEntries s).map (fun x =>
    { spiceId := x.1.id
      name := x.1.name
      quantity := x.2
      unitPrice := x.1.price
      subtotal := x.1.price * (x.2 : Int) })

/-- The `total` of `handlePlaceOrder`: reduce over the item subtotals. -/
def composedTotal (s : AppState) : Int :=
  (composedItems s).foldl (fun sum item => sum + item.subtotal) 0

/-- The `order` record assembled by `handlePlaceOrder` on acceptance. -/
def composedOrder (now : Nat) (nowIso : String) (s : AppState) : Order :=
  { id := "HL-" ++ toString now
    createdAt := nowIso
    customerName := jsTrim s.orderName
    customerEmail := jsTrim s.orderEmail
    customerPhone := trimOpt s.orderPhone
    customerAddress := trimOpt s.orderAddress
    customerCity := trimOpt s.orderCity
    customerPostalCode := trimOpt s.orderPostalCode
    note := trimOpt s.orderNote
    paymentMethod := s.paymentMethod
    items := composedItems s
    total := composedTotal s
    userId := s.currentUserId }

/-- The `handlePlaceOrder` handler: validates contact fields and the
cart, assembles the snapshotted `Order`, appends it to the history,
composes the receipt, decides the hand-off, and clears the cart and
note.  `now` is `Date.now()`, `nowIso` the ISO timestamp; the returned
option is the message handed to the external mail composer, if any.
The handler first clears `orderError`/`orderStatus` and then sets them;
each branch below carries their final values. -/
def handlePlaceOrder (now : Nat) (nowIso : String) (s : AppState) :
    AppState × Option MailMessage :=
  if jsTrim s.orderName = "" ∨ jsTrim s.orderEmail = "" then
    ({ s with
        orderStatus := none
        orderError := some "Please add your name and email so we can confirm your order." },
     none)
  else if (selectedEntries s).length = 0 then
    ({ s with
        orderStatus := none
        orderError := some "Add at least one spice to your order." }, none)
  else
    let order := composedOrder now nowIso s
    let emailBody := String.intercalate "\n" (orderBodyLines order)
    let trimmedAdminEmail := jsTrim s.adminConfig.adminEmail
    if trimmedAdminEmail ≠ "" then
      ({ s with
          orders := s.orders ++ [order]
          quantities := []
          orderNote := ""
          orderError := none
          orderStatus := some "Order drafted. Your email app should open with a ready to send order email to the Homelike admin." },
       some { recipient := trimmedAdminEmail
              subject := "New Homelike order " ++ order.id
              body := emailBody })
    else
      ({ s with
          orders := s.orders ++ [order]
          quantities := []
          orderNote := ""
          orderError := none
          orderStatus := some "Order saved in the local admin panel. Add an admin email in the Admin Panel to enable one click email sending." },
       none)

/-- The admin "new spice" form.  `price` holds the numeric value
`Number(newSpice.price)` of the raw text input. -/
structure NewSpiceForm where
  name : String
  description : String
  price : JSNum
  unit : String
  heat : HeatLevel
  origin : String
  notes : String
  imageDataUrl : Option String := none
  isSignature : Bool := false
deriving Repr, DecidableEq

/-- The reset value of the new-spice form after a successful creation
(a cleared price text parses as the number 0). -/
def emptyNewSpiceForm : NewSpiceForm :=
  { name := ""
    description := ""
    price := .num 0
    unit := "100g"
    heat := .Medium
    origin := ""
    notes := ""
    imageDataUrl := none
    isSignature := false }

/-- Collapse every run of consecutive hyphens to a single hyphen. -/
def collapseHyphens : List Char → List Char
  | [] => []
  | [c] => [c]
  | a :: b :: rest =>
    if a = '-' ∧ b = '-' then collapseHyphens (b :: rest)
    else a :: collapseHyphens (b :: rest)

/-- Identifier derivation of `handleCreateSpice`: lower-case the name,
replace every run of characters outside `a-z0-9` by one hyphen
(the regex `[^a-z0-9]+` with replacement `-`), then strip leading and
trailing hyphens (`(^-|-$)+`). -/
def slugify (name : String) : String :=
  let lowered := (jsToLower name).data
  let hyphened := lowered.map (fun c => if c.isLower || c.isDigit then c else '-')
  let collapsed := collapseHyphens hyphened
  let stripped :=
    ((collapsed.dropWhile (fun c => c = '-')).reverse.dropWhile (fun c => c = '-')).reverse
  String.mk stripped

/-- `Math.round` on a finite JavaScript number: half-up rounding
towards positive infinity. -/
def jsRound (q : ℚ) : Int := ⌊q + 1 / 2⌋

/-- Result of a `handleCreateSpice` call: the catalog, the admin form,
and the admin status message. -/
structure CreateSpiceResult where
  spices : List Spice
  form : NewSpiceForm
  adminMessage : Option String
deriving Repr, DecidableEq

/-- Identifier chosen by `handleCreateSpice`: the slug of the name, a
time-derived placeholder when the slug is empty, and a time-derived
uniqueness suffix when the candidate already exists in the catalog. -/
def spiceIdFor (now : Nat) (spices : List Spice) (name : String) : String :=
  let baseId := slugify name
  let candidateId := if baseId = "" then "spice-" ++ toString now else baseId
  if spices.any (fun sp => sp.id = candidateId) then
    candidateId ++ "-" ++ toString now
  else candidateId

/-- The `created` record assembled by `handleCreateSpice`. -/
def createdSpice (id : String) (form : NewSpiceForm) (priceNumber : ℚ) : Spice :=
  { id := id
    name := jsTrim form.name
    description :=
      if jsTrim form.description = "" then "Custom Homelike blend."
      else jsTrim form.description
    notes := trimOpt form.notes
    price := jsRound priceNumber
    unit := if jsTrim form.unit = "" then "100g" else jsTrim form.unit
    heat := form.heat
    origin := trimOpt form.origin
    isNew := some true
    isSignature := some form.isSignature
    colorClass := "from-amber-500 via-orange-500 to-rose-500"
    imageDataUrl := form.imageDataUrl }

/-- The `handleCreateSpice` handler: validates the draft, derives a
slug identifier with a time-derived suffix on collision, appends the
created product, and resets the form. -/
def handleCreateSpice (now : Nat) (spices : List Spice) (form : NewSpiceForm) :
    CreateSpiceResult :=
  if jsTrim form.name = "" then
    { spices := spices, form := form,
      adminMessage := some "Give your spice a name before adding it." }
  else
    match form.price with
    | .nonFinite =>
      { spices := spices, form := form, adminMessage := some "Enter a valid price in INR." }
    | .num priceNumber =>
      if priceNumber ≤ 0 then
        { spices := spices, form := form, adminMessage := some "Enter a valid price in INR." }
      else
        let created := createdSpice (spiceIdFor now spices form.name) form priceNumber
        { spices := spices ++ [created]
          form := emptyNewSpiceForm
          adminMessage := some ("Added \"" ++ created.name ++ "\" to your Homelike catalog.") }

/-- The compiled-in `defaultAdminConfig`. -/
def defaultAdminConfig : AdminConfig :=
  { adminEmail := ""
    brandTagline := "Small batch homestyle masalas for modern kitchens."
    supportPhone := some ""
    upiId := some ""
    city := some ""
    minimumOrderNote := some "Free delivery in your city for orders above INR 400." }

/-- The compiled-in `defaultSpices` catalog. -/
def defaultSpices : List Spice :=
  [{ id := "signature-garam-masala"
     name := "Signature Garam Masala"
     description := "Slow roasted whole spices, ground in tiny batches for a deep, homelike base to every curry."
     notes := some "Add at the end of cooking for the best aroma."
     price := 289
     unit := "100g jar"
     heat := .Medium
     origin := some "Family recipe developed in a small home kitchen."
     isSignature := some true
     isNew := some true
     colorClass := "from-amber-500 via-orange-500 to-rose-500" },
   { id := "chai-masala"
     name := "Sunday Chai Masala"
     description := "Cardamom forward chai blend with ginger, cinnamon and clove for slow evenings and long calls."
     notes := some "Simmer with milk and tea leaves for 3-4 minutes."
     price := 249
     unit := "75g tin"
     heat := .Mild
     origin := some "Inspired by weekend breakfasts at home."
     colorClass := "from-orange-400 via-amber-500 to-amber-600" },
   { id := "everyday-sabzi"
     name := "Everyday Sabzi Blend"
     description := "Balanced turmeric, cumin and coriander with a bright tomato note - an easy base for daily sabzis."
     notes := some "Great for bhindi, aloo, paneer and mixed vegetables."
     price := 199
     unit := "100g pouch"
     heat := .Mild
     origin := some "Designed for quick weekday cooking."
     colorClass := "from-amber-400 via-lime-400 to-emerald-500" },
   { id := "tadka-chilli-oil"
     name := "Flame Tadka Chilli Oil"
     description := "Crispy chilli, garlic and mustard seeds infused in cold pressed oil - instant tadka for dal or eggs."
     notes := some "Use a small spoon at a time. It is hot."
     price := 320
     unit := "150ml bottle"
     heat := .Hot
     origin := some "Tested over many breakfasts before launch."
     colorClass := "from-rose-500 via-orange-500 to-amber-500" }]

/-- On-device durable storage: the four independently keyed slots
(`homelike_admin_v1`, `homelike_spices_v1`, `homelike_users_v1`,
`homelike_orders_v1`).  Each stored JSON document is modelled at its
parsed type, since `JSON.parse` after `JSON.stringify` is the identity
on these plain-data records; `none` models an absent or unparseable
slot. -/
structure Storage where
  admin : Option AdminConfig := none
  spices : Option (List Spice) := none
  users : Option (List User) := none
  orders : Option (List Order) := none
deriving Repr, DecidableEq

/-- The admin-config persist effect: write-through of the config. -/
def saveAdmin (cfg : AdminConfig) (σ : Storage) : Storage := { σ with admin := some cfg }

/-- The catalog persist effect: write-through of the product list. -/
def saveSpices (sp : List Spice) (σ : Storage) : Storage := { σ with spices := some sp }

/-- The profiles persist effect: write-through of the user list. -/
def saveUsers (us : List User) (σ : Storage) : Storage := { σ with users := some us }

/-- The orders persist effect: write-through of the order history. -/
def saveOrders (ords : List Order) (σ : Storage) : Storage := { σ with orders := some ords }

/-- The JavaScript object spread `{ ...defaultAdminConfig, ...parsed }`:
every key present in the parsed document overrides the default. -/
def mergeAdminConfig (d parsed : AdminConfig) : AdminConfig :=
  { adminEmail := parsed.adminEmail
    brandTagline := parsed.brandTagline
    supportPhone := parsed.supportPhone <|> d.supportPhone
    upiId := parsed.upiId <|> d.upiId
    city := parsed.city <|> d.city
    minimumOrderNote := parsed.minimumOrderNote <|> d.minimumOrderNote }

/-- Load of the admin-config slot: a stored object is merged over the
defaults, otherwise the defaults are kept. -/
def loadAdmin (σ : Storage) : AdminConfig :=
  match σ.admin with
  | some parsed => mergeAdminConfig defaultAdminConfig parsed
  | none => defaultAdminConfig

/-- Load of the catalog slot: a stored non-empty array replaces the
default catalog (`Array.isArray(parsed) && parsed.length > 0`). -/
def loadSpices (σ : Storage) : List Spice :=
  match σ.spices with
  | some parsed => if parsed.length > 0 then parsed else defaultSpices
  | none => defaultSpices

/-- Load of the profiles slot: any stored array is taken as-is. -/
def loadUsers (σ : Storage) : List User :=
  match σ.users with
  | some parsed => parsed
  | none => []

/-- Load of the orders slot: any stored array is taken as-is. -/
def loadOrders (σ : Storage) : List Order :=
  match σ.orders with
  | some parsed => parsed
  | none => []

/-- Catalog unit price of a product id: the price of the first catalog
entry carrying that id, 0 when the id does not resolve. -/
def priceOf (spices : List Spice) (id : String) : Int :=
  match spices.find? (fun sp => sp.id = id) with
  | some sp => sp.price
  | none => 0

/-- The cart state reached by folding a sequence of quantity updates
over a starting cart. -/
def applyQuantityCalls (calls : List (String × JSNum)) (cart : Cart) : Cart :=
  calls.foldl (fun c p => handleQuantityChange c p.1 p.2) cart

/-- New-spice form filled with the data of the C6 scenario:
`addProduct({name:"Chai Mix", price:120})`. -/
def chaiMixForm : NewSpiceForm :=
  { name := "Chai Mix"
    description := ""
    price := .num 120
    unit := "100g"
    heat := .Medium
    origin := ""
    notes := ""
    imageDataUrl := none
    isSignature := false }

/-- Catalog product `p1` of the C1 scenario (price 100). -/
def exSpiceP1 : Spice :=
  { id := "p1"
    name := "P One"
    description := "d1"
    price := 100
    unit := "100g"
    heat := .Mild
    colorClass := "c1" }

/-- Catalog product `p2` of the C1 scenario (price 50). -/
def exSpiceP2 : Spice :=
  { id := "p2"
    name := "P Two"
    description := "d2"
    price := 50
    unit := "100g"
    heat := .Hot
    colorClass := "c2" }

/-- App state of the C1 scenario: cart `p1 ↦ 2, p2 ↦ 1` over a
two-product catalog, with valid contact fields. -/
def exC1State : AppState :=
  { adminConfig := defaultAdminConfig
    spices := [exSpiceP1, exSpiceP2]
    quantities := [("p1", 2), ("p2", 1)]
    orderName := "Asha"
    orderEmail := "a@x.com"
    orderNote := "ring the bell" }

/-- App state of the C2 scenario: a filled cart but a blank (space
only) contact name, so the submission is rejected. -/
def exC2State : AppState :=
  { adminConfig := defaultAdminConfig
    spices := [exSpiceP1, exSpiceP2]
    quantities := [("p1", 2)]
    orderName := " "
    orderEmail := "a@x.com" }

/-- Modelled from the spec (§4.6 wording of claim C8): a single
combined address line built by joining the non-empty parts street,
city and postal code with `", "` as the separator.  Used to compare
the specified format against the implementation's `addressLines`. -/
def specAddressLine (order : Order) : String :=
  "Address: " ++ String.intercalate ", "
    (([order.customerAddress.getD "", order.customerCity.getD "",
        order.customerPostalCode.getD ""]).filter (fun p => p ≠ ""))

/-- App state of the C8 scenario: all three address parts present. -/
def exC8State : AppState :=
  { adminConfig := defaultAdminConfig
    spices := [exSpiceP1, exSpiceP2]
    quantities := [("p1", 1)]
    orderName := "Asha"
    orderEmail := "a@x.com"
    orderAddress := "5 Lane"
    orderCity := "Pune"
    orderPostalCode := "411001" }

/-- The order accepted from `exC8State`. -/
def exC8Order : Order := composedOrder 7 "2026-01-03" exC8State

/-- App state of the C9 scenario: valid submission with a configured
admin contact address. -/
def exC9State : AppState :=
  { adminConfig := { defaultAdminConfig with adminEmail := "owner@x.com" }
    spices := [exSpiceP1, exSpiceP2]
    quantities := [("p2", 3)]
    orderName := "Asha"
    orderEmail := "a@x.com" }

/-- App state of the C5 scenario: empty profile store and a filled
contact form with email `A@x.com`. -/
def exC5State : AppState :=
  { adminConfig := defaultAdminConfig
    spices := defaultSpices
    users := []
    orderName := "Asha"
    orderEmail := "A@x.com" }

/-- Fuel-free decimal digit list (most significant digit first),
agreeing with the fuelled `Nat.toDigitsCore` at base 10; used to reason
about the time-derived identifier strings. -/
def decDigits (n : Nat) : List Char :=
  if _h : n < 10 then [Nat.digitChar n]
  else decDigits (n / 10) ++ [Nat.digitChar (n % 10)]
decreasing_by exact Nat.div_lt_self (by omega) (by omega)

section ReprLemmas

theorem toDigitsCore_eq_decDigits :
    ∀ fuel n ds, n < fuel → Nat.toDigitsCore 10 fuel n ds = decDigits n ++ ds := by
  intro fuel
  induction fuel with
  | zero => intro n ds h; omega
  | succ f ih =>
    intro n ds h
    by_cases h10 : n / 10 = 0
    · have hn : n < 10 := (Nat.div_eq_zero_iff (by omega)).mp h10
      rw [show Nat.toDigitsCore 10 (f + 1) n ds = Nat.digitChar (n % 10) :: ds from by
            simp [Nat.toDigitsCore, h10]]
      rw [decDigits, dif_pos hn, Nat.mod_eq_of_lt hn]
      rfl
    · have hn : ¬ n < 10 := fun hlt => h10 (Nat.div_eq_of_lt hlt)
      have hdiv : n / 10 < f := by
        have h1 : n / 10 < n := Nat.div_lt_self (by omega) (by omega)
        omega
      rw [show Nat.toDigitsCore 10 (f + 1) n ds
            = Nat.toDigitsCore 10 f (n / 10) (Nat.digitChar (n % 10) :: ds) from by
            simp [Nat.toDigitsCore, h10]]
      rw [ih _ _ hdiv]
      conv_rhs => rw [decDigits]
      rw [dif_neg hn, List.append_assoc]
      rfl

theorem digitChar_decode (m : Nat) (h : m < 10) :
    (Nat.digitChar m).toNat - '0'.toNat = m := by
  interval_cases m <;> rfl

theorem decDigits_foldl (n : Nat) : ∀ acc : Nat,
    (decDigits n).foldl (fun acc c => acc * 10 + (c.toNat - '0'.toNat)) acc
      = acc * 10 ^ (decDigits n).length + n := by
  induction n using Nat.strong_induction_on with
  | _ n ih =>
    intro acc
    by_cases h : n < 10
    · rw [decDigits, dif_pos h]
      simp only [List.foldl_cons, List.foldl_nil, List.length_cons, List.length_nil,
        digitChar_decode n h]
      norm_num
    · rw [decDigits, dif_neg h]
      rw [List.foldl_append,
        ih (n / 10) (Nat.div_lt_self (by omega) (by omega)) acc]
      simp only [List.foldl_cons, List.foldl_nil,
        digitChar_decode (n % 10) (Nat.mod_lt _ (by omega)),
        List.length_append, List.length_cons, List.length_nil]
      calc (acc * 10 ^ (decDigits (n / 10)).length + n / 10) * 10 + n % 10
          = acc * (10 ^ (decDigits (n / 10)).length * 10) + (10 * (n / 10) + n % 10) := by
            ring
        _ = acc * 10 ^ ((decDigits (n / 10)).length + (0 + 1)) + n := by
            rw [Nat.div_add_mod]
            ring

theorem decDigits_injective : Function.Injective decDigits := by
  intro m n h
  have hm := decDigits_foldl m 0
  have hn := decDigits_foldl n 0
  rw [h] at hm
  rw [hm] at hn
  omega

theorem natRepr_injective : Function.Injective Nat.repr := by
  intro m n h
  have hm : Nat.repr m = (decDigits m).asString := by
    show (Nat.toDigits 10 m).asString = (decDigits m).asString
    rw [Nat.toDigits, toDigitsCore_eq_decDigits (m + 1) m [] (Nat.lt_succ_self m),
      List.append_nil]
  have hn : Nat.repr n = (decDigits n).asString := by
    show (Nat.toDigits 10 n).asString = (decDigits n).asString
    rw [Nat.toDigits, toDigitsCore_eq_decDigits (n + 1) n [] (Nat.lt_succ_self n),
      List.append_nil]
  rw [hm, hn] at h
  apply decDigits_injective
  have := congrArg String.data h
  simpa [List.asString] using this

theorem natToString_injective (m n : Nat) (h : toString m = toString n) : m = n :=
  natRepr_injective (show Nat.repr m = Nat.repr n from h)

theorem string_append_left_cancel (p a b : String) (h : p ++ a = p ++ b) : a = b := by
  have hd := congrArg String.data h
  simp only [String.data_append] at hd
  exact String.ext (List.append_cancel_left hd)

theorem string_length_ne {a b : String} (h : a.length ≠ b.length) : a ≠ b :=
  fun he => h (he ▸ rfl)

end ReprLemmas

section CartLemmas

theorem lookupQty_nil (id : String) : lookupQty [] id = 0 := rfl

theorem lookupQty_cons (k : String) (v : Nat) (rest : Cart) (id : String) :
    lookupQty ((k, v) :: rest) id = if k = id then v else lookupQty rest id := by
  by_cases h : k = id <;> simp [lookupQty, List.find?_cons, h]

theorem lookupQty_eq_zero_of_not_mem_keys (cart : Cart) (id : String)
    (h : id ∉ cart.map Prod.fst) : lookupQty cart id = 0 := by
  induction cart with
  | nil => rfl
  | cons kv rest ih =>
    obtain ⟨k, v⟩ := kv
    rw [lookupQty_cons]
    simp only [List.map_cons, List.mem_cons] at h
    push_neg at h
    rw [if_neg (Ne.symm h.1), ih h.2]

theorem handleQuantityChange_pos (cart : Cart) (id : String) (v : JSNum)
    (h : ∀ kv ∈ cart, 0 < kv.2) :
    ∀ kv ∈ handleQuantityChange cart id v, 0 < kv.2 := by
  intro kv hkv
  unfold handleQuantityChange at hkv
  by_cases hz : coerceQty v = 0
  · simp only [hz, if_pos rfl] at hkv
    exact h kv (List.mem_of_mem_filter hkv)
  · simp only [if_neg hz] at hkv
    by_cases hany : cart.any (fun kv => kv.1 = id)
    · rw [if_pos hany] at hkv
      obtain ⟨kv', hkv', heq⟩ := List.mem_map.mp hkv
      by_cases hid : kv'.1 = id
      · simp only [hid, if_pos rfl] at heq
        subst heq
        exact Nat.pos_of_ne_zero hz
      · simp only [hid, if_neg] at heq
        subst heq
        exact h kv' hkv'
    · rw [if_neg hany] at hkv
      rcases List.mem_append.mp hkv with hm | hm
      · exact h kv hm
      · simp only [List.mem_singleton] at hm
        subst hm
        exact Nat.pos_of_ne_zero hz

theorem handleQuantityChange_keys_nodup (cart : Cart) (id : String) (v : JSNum)
    (h : (cart.map Prod.fst).Nodup) :
    ((handleQuantityChange cart id v).map Prod.fst).Nodup := by
  unfold handleQuantityChange
  by_cases hz : coerceQty v = 0
  · simp only [hz, if_pos rfl]
    exact h.sublist ((List.filter_sublist cart).map Prod.fst)
  · simp only [if_neg hz]
    by_cases hany : cart.any (fun kv => kv.1 = id)
    · rw [if_pos hany]
      have : (cart.map (fun kv => if kv.1 = id then (id, coerceQty v) else kv)).map Prod.fst
          = cart.map Prod.fst := by
        rw [List.map_map]
        apply List.map_congr_left
        intro kv _
        by_cases hid : kv.1 = id
        · simp [Function.comp, hid]
        · simp [Function.comp, hid]
      rw [this]; exact h
    · rw [if_neg hany]
      rw [List.map_append]
      simp only [List.map_cons, List.map_nil]
      rw [List.nodup_append]
      refine ⟨h, List.nodup_singleton _, ?_⟩
      intro a ha
      simp only [List.mem_singleton]
      intro heq
      subst heq
      obtain ⟨kv, hkv, hfst⟩ := List.mem_map.mp ha
      apply hany
      rw [List.any_eq_true]
      refine ⟨kv, hkv, ?_⟩
      simp [hfst]

theorem applyQuantityCalls_pos (calls : List (String × JSNum)) (cart : Cart)
    (h : ∀ kv ∈ cart, 0 < kv.2) :
    ∀ kv ∈ applyQuantityCalls calls cart, 0 < kv.2 := by
  induction calls generalizing cart with
  | nil => exact h
  | cons p rest ih =>
    exact ih _ (handleQuantityChange_pos cart p.1 p.2 h)

theorem applyQuantityCalls_keys_nodup (calls : List (String × JSNum)) (cart : Cart)
    (h : (cart.map Prod.fst).Nodup) :
    ((applyQuantityCalls calls cart).map Prod.fst).Nodup := by
  induction calls generalizing cart with
  | nil => exact h
  | cons p rest ih =>
    exact ih _ (handleQuantityChange_keys_nodup cart p.1 p.2 h)

end CartLemmas

/-- Claim C3: starting from the empty mapping, any finite sequence of
`setQuantity` calls leaves a cart with no entry whose quantity is 0 or
less (quantity 0 is absence of the key), and `hasSelection` is `true`
exactly when the mapping is non-empty. -/
theorem claim_C3_setQuantity_invariant (calls : List (String × JSNum)) :
    (∀ kv ∈ applyQuantityCalls calls [], 0 < kv.2) ∧
      (hasSelection (applyQuantityCalls calls []) = true ↔
        applyQuantityCalls calls [] ≠ []) := by
  have hpos := applyQuantityCalls_pos calls [] (by intro kv hkv; cases hkv)
  refine ⟨hpos, ?_⟩
  constructor
  · intro hsel
    intro hnil
    rw [hnil] at hsel
    simp [hasSelection] at hsel
  · intro hne
    cases hm : applyQuantityCalls calls [] with
    | nil => exact absurd hm hne
    | cons kv rest =>
      have hkv : 0 < kv.2 := hpos kv (by rw [hm]; exact List.mem_cons_self kv rest)
      unfold hasSelection
      simp only [List.any_cons, Bool.or_eq_true, decide_eq_true_eq]
      exact Or.inl hkv

section TotalLemmas

theorem foldl_add_eq_sum {α : Type} (f : α → Int) (l : List α) (i : Int) :
    l.foldl (fun s x => s + f x) i = i + (l.map f).sum := by
  induction l generalizing i with
  | nil => simp
  | cons a l ih => simp [List.foldl_cons, ih, add_assoc]

theorem estimatedTotal_eq_sum_map (spices : List Spice) (cart : Cart) :
    estimatedTotal spices cart
      = (spices.map (fun sp => sp.price * (lookupQty cart sp.id : Int))).sum := by
  unfold estimatedTotal
  rw [foldl_add_eq_sum]
  simp

theorem sum_split (spices : List Spice) (k : String) (v : Nat) (g : String → Int)
    (hmem : ∃ sp ∈ spices, sp.id = k)
    (hnodup : (spices.map Spice.id).Nodup)
    (hg : g k = 0) :
    (spices.map (fun sp => sp.price * (if sp.id = k then (v : Int) else g sp.id))).sum
      = (spices.map (fun sp => sp.price * g sp.id)).sum + priceOf spices k * v := by
  induction spices with
  | nil => simp at hmem
  | cons sp rest ih =>
    simp only [List.map_cons, List.nodup_cons] at hnodup
    simp only [List.map_cons, List.sum_cons]
    by_cases hid : sp.id = k
    · have hrest : ∀ sp' ∈ rest, ¬(sp'.id = k) := by
        intro sp' hsp' heq
        exact hnodup.1 (List.mem_map.mpr ⟨sp', hsp', by rw [heq, hid]⟩)
      have hmap : rest.map (fun sp' => sp'.price * (if sp'.id = k then (v : Int) else g sp'.id))
          = rest.map (fun sp' => sp'.price * g sp'.id) := by
        apply List.map_congr_left
        intro sp' hsp'
        rw [if_neg (hrest sp' hsp')]
      have hprice : priceOf (sp :: rest) k = sp.price := by
        unfold priceOf
        rw [List.find?_cons_of_pos _ (by simp [hid])]
      rw [if_pos hid, hmap, hprice, hid, hg]
      ring
    · have hprice : priceOf (sp :: rest) k = priceOf rest k := by
        unfold priceOf
        rw [List.find?_cons_of_neg _ (by simp [hid])]
      have hmem' : ∃ sp' ∈ rest, sp'.id = k := by
        obtain ⟨sp', hsp', heq⟩ := hmem
        rcases List.mem_cons.mp hsp' with h | h
        · exact absurd (h ▸ heq) hid
        · exact ⟨sp', h, heq⟩
      rw [if_neg hid, ih hmem' hnodup.2, hprice]
      ring

theorem sum_lookup_eq (spices : List Spice) (cart : Cart)
    (hnodupIds : (spices.map Spice.id).Nodup)
    (hkeys : (cart.map Prod.fst).Nodup)
    (hres : ∀ kv ∈ cart, ∃ sp ∈ spices, sp.id = kv.1) :
    (spices.map (fun sp => sp.price * (lookupQty cart sp.id : Int))).sum
      = (cart.map (fun kv => priceOf spices kv.1 * (kv.2 : Int))).sum := by
  induction cart with
  | nil => simp [lookupQty_nil]
  | cons kv rest ih =>
    obtain ⟨k, v⟩ := kv
    simp only [List.map_cons, List.nodup_cons] at hkeys
    have hk0 : lookupQty rest k = 0 :=
      lookupQty_eq_zero_of_not_mem_keys rest k hkeys.1
    have hmem : ∃ sp ∈ spices, sp.id = k := by
      have := hres (k, v) (List.mem_cons_self _ _)
      simpa using this
    have hstep : (spices.map (fun sp => sp.price * (lookupQty ((k, v) :: rest) sp.id : Int)))
        = spices.map (fun sp => sp.price * (if sp.id = k then (v : Int) else (lookupQty rest sp.id : Int))) := by
      apply List.map_congr_left
      intro sp _
      rw [lookupQty_cons]
      by_cases h : sp.id = k
      · rw [if_pos h.symm, if_pos h]
      · rw [if_neg (fun hh => h hh.symm), if_neg h]
    rw [hstep,
      sum_split spices k v (fun id => (lookupQty rest id : Int)) hmem hnodupIds
        (by show ((lookupQty rest k : Nat) : Int) = 0; rw [hk0]; rfl),
      ih hkeys.2 (fun kv hkv => hres kv (List.mem_cons_of_mem _ hkv))]
    simp only [List.map_cons, List.sum_cons]
    ring

end TotalLemmas

/-- Claim C4: for every cart mapping (well-formed: distinct keys) and
every catalog with distinct product ids in which every cart key
resolves, `estimatedTotal` equals the sum over the cart entries of the
current catalog unit price times the stored quantity. -/
theorem claim_C4_estimatedTotal (spices : List Spice) (cart : Cart)
    (hnodupIds : (spices.map Spice.id).Nodup)
    (hkeys : (cart.map Prod.fst).Nodup)
    (hres : ∀ kv ∈ cart, ∃ sp ∈ spices, sp.id = kv.1) :
    estimatedTotal spices cart
      = (cart.map (fun kv => priceOf spices kv.1 * (kv.2 : Int))).sum := by
  rw [estimatedTotal_eq_sum_map]
  exact sum_lookup_eq spices cart hnodupIds hkeys hres

/-- Concrete instance of claim C4: two default products at quantities 2
and 1 give an estimate of `2 * 249 + 1 * 199`. -/
theorem claim_C4_estimatedTotal_witness :
    ((defaultSpices.map Spice.id).Nodup ∧
      ((([("chai-masala", 2), ("everyday-sabzi", 1)] : Cart)).map Prod.fst).Nodup ∧
      (∀ kv ∈ ([("chai-masala", 2), ("everyday-sabzi", 1)] : Cart),
        ∃ sp ∈ defaultSpices, sp.id = kv.1)) ∧
    estimatedTotal defaultSpices [("chai-masala", 2), ("everyday-sabzi", 1)]
      = (([("chai-masala", 2), ("everyday-sabzi", 1)] : Cart).map
          (fun kv => priceOf defaultSpices kv.1 * (kv.2 : Int))).sum :=
  ⟨⟨by decide, by decide, by decide⟩,
    claim_C4_estimatedTotal _ _ (by decide) (by decide) (by decide)⟩

section CreateSpiceLemmas

theorem handleCreateSpice_chai (t : Nat) (sp : List Spice) (form : NewSpiceForm)
    (hname : form.name = "Chai Mix") (hprice : form.price = JSNum.num 120) :
    handleCreateSpice t sp form =
      { spices := sp ++ [createdSpice (spiceIdFor t sp form.name) form 120]
        form := emptyNewSpiceForm
        adminMessage := some ("Added \"" ++
          (createdSpice (spiceIdFor t sp form.name) form 120).name ++
          "\" to your Homelike catalog.") } := by
  have htrim : ¬ jsTrim form.name = "" := by rw [hname]; decide
  unfold handleCreateSpice
  rw [hprice, if_neg htrim]
  dsimp only
  rw [if_neg (by norm_num : ¬ (120 : ℚ) ≤ 0)]

theorem spiceIdFor_chai (t : Nat) (sp : List Spice) (form : NewSpiceForm)
    (hname : form.name = "Chai Mix") :
    spiceIdFor t sp form.name =
      if sp.any (fun s => s.id = "chai-mix") then "chai-mix" ++ "-" ++ toString t
      else "chai-mix" := by
  unfold spiceIdFor
  rw [hname, show slugify "Chai Mix" = "chai-mix" from by decide]
  dsimp only
  rw [if_neg (by decide : ¬ ("chai-mix" : String) = "")]

theorem chai_ne_suffixed (t : Nat) : ("chai-mix" : String) ≠ "chai-mix" ++ "-" ++ toString t := by
  apply string_length_ne
  rw [String.length_append, String.length_append]
  have h8 : ("chai-mix" : String).length = 8 := by decide
  have h1 : ("-" : String).length = 1 := by decide
  omega

theorem suffixed_ne_suffixed (t1 t2 : Nat) (ht : t1 ≠ t2) :
    ("chai-mix" ++ "-" ++ toString t1 : String) ≠ "chai-mix" ++ "-" ++ toString t2 := by
  intro he
  apply ht
  apply natToString_injective
  exact string_append_left_cancel ("chai-mix" ++ "-") _ _
    (by rwa [String.append_assoc, String.append_assoc] at he)

end CreateSpiceLemmas

/-- Claim C6: for every catalog, adding a product named "Chai Mix" with
price 120 twice (at distinct wall-clock ticks) appends two products
with distinct identifiers — a time-derived suffix is used when the slug
is taken — leaving every prior catalog record untouched, and keeping
both present in the final catalog. -/
theorem claim_C6_addProduct (t1 t2 : Nat) (spices : List Spice) (form : NewSpiceForm)
    (hname : form.name = "Chai Mix") (hprice : form.price = JSNum.num 120)
    (ht : t1 ≠ t2) :
    ∃ q1 q2 : Spice,
      (handleCreateSpice t1 spices form).spices = spices ++ [q1] ∧
      (handleCreateSpice t2 (handleCreateSpice t1 spices form).spices form).spices
        = (spices ++ [q1]) ++ [q2] ∧
      q1.id ≠ q2.id ∧
      q1 ∈ (handleCreateSpice t2 (handleCreateSpice t1 spices form).spices form).spices ∧
      q2 ∈ (handleCreateSpice t2 (handleCreateSpice t1 spices form).spices form).spices := by
  have h1 := handleCreateSpice_chai t1 spices form hname hprice
  set q1 := createdSpice (spiceIdFor t1 spices form.name) form 120 with hq1
  have hsp1 : (handleCreateSpice t1 spices form).spices = spices ++ [q1] := by
    rw [h1]
  have h2 := handleCreateSpice_chai t2 (spices ++ [q1]) form hname hprice
  set q2 := createdSpice (spiceIdFor t2 (spices ++ [q1]) form.name) form 120 with hq2
  refine ⟨q1, q2, hsp1, ?_, ?_, ?_, ?_⟩
  · rw [hsp1, h2]
  · -- distinct identifiers
    have hid1 := spiceIdFor_chai t1 spices form hname
    have hid2 := spiceIdFor_chai t2 (spices ++ [q1]) form hname
    have hq1id : q1.id = spiceIdFor t1 spices form.name := rfl
    have hq2id : q2.id = spiceIdFor t2 (spices ++ [q1]) form.name := rfl
    rw [hq1id, hq2id, hid1, hid2]
    by_cases hb : spices.any (fun s => s.id = "chai-mix")
    · have hb2 : (spices ++ [q1]).any (fun s => s.id = "chai-mix") := by
        rw [List.any_append, hb]
        rfl
      rw [if_pos hb, if_pos hb2]
      exact suffixed_ne_suffixed t1 t2 ht
    · have hq1chai : q1.id = "chai-mix" := by
        rw [hq1id, hid1, if_neg hb]
      have hb2 : (spices ++ [q1]).any (fun s => s.id = "chai-mix") := by
        simp [List.any_append, hq1chai]
      rw [if_neg hb, if_pos hb2]
      exact chai_ne_suffixed t2
  · rw [hsp1, h2]
    simp
  · rw [hsp1, h2]
    simp

/-- Concrete instance of claim C6: two "Chai Mix" creations at ticks 11
and 22 over the default catalog. -/
theorem claim_C6_addProduct_witness :
    (chaiMixForm.name = "Chai Mix" ∧ chaiMixForm.price = JSNum.num 120 ∧ (11 : Nat) ≠ 22) ∧
    (∃ q1 q2 : Spice,
      (handleCreateSpice 11 defaultSpices chaiMixForm).spices = defaultSpices ++ [q1] ∧
      (handleCreateSpice 22 (handleCreateSpice 11 defaultSpices chaiMixForm).spices
          chaiMixForm).spices = (defaultSpices ++ [q1]) ++ [q2] ∧
      q1.id ≠ q2.id ∧
      q1 ∈ (handleCreateSpice 22 (handleCreateSpice 11 defaultSpices chaiMixForm).spices
          chaiMixForm).spices ∧
      q2 ∈ (handleCreateSpice 22 (handleCreateSpice 11 defaultSpices chaiMixForm).spices
          chaiMixForm).spices) :=
  ⟨⟨rfl, rfl, by decide⟩,
    claim_C6_addProduct 11 22 defaultSpices chaiMixForm rfl rfl (by decide)⟩

section ProfileLemmas

theorem handleSaveProfile_found (t : Nat) (s : AppState) (ex : User)
    (hv : ¬(jsTrim s.orderName = "" ∨ jsTrim s.orderEmail = ""))
    (hf : s.users.find? (fun u => jsToLower u.email = jsToLower (jsTrim s.orderEmail))
        = some ex) :
    handleSaveProfile t s =
      { s with
        users := s.users.map (fun u => if u.id = ex.id then savedProfileUser ex.id s else u)
        currentUserId := some ex.id
        profileStatus := some "Updated your saved profile." } := by
  unfold handleSaveProfile
  rw [if_neg hv, hf]

theorem map_replace_eq_self (l : List User) (idv : String) (b : User)
    (h : ∀ u ∈ l, u.id ≠ idv) :
    l.map (fun u => if u.id = idv then b else u) = l := by
  induction l with
  | nil => rfl
  | cons u rest ih =>
    rw [List.map_cons, if_neg (h u (List.mem_cons_self _ _)),
      ih (fun v hv => h v (List.mem_cons_of_mem _ hv))]

theorem handleSaveProfile_notFound (t : Nat) (s : AppState)
    (hv : ¬(jsTrim s.orderName = "" ∨ jsTrim s.orderEmail = ""))
    (hf : s.users.find? (fun u => jsToLower u.email = jsToLower (jsTrim s.orderEmail))
        = none) :
    handleSaveProfile t s =
      { s with
        users := s.users ++ [savedProfileUser ("user-" ++ toString t) s]
        currentUserId := some ("user-" ++ toString t)
        profileStatus := some "Saved a new profile in this browser." } := by
  unfold handleSaveProfile
  rw [if_neg hv, hf]

end ProfileLemmas

/-- Claim C5: profile upsert keyed by case-insensitively normalized
email is idempotent: for any store with distinct profile ids, at most
one profile matching the email, and a fresh time-derived id, saving a
profile and then saving again with an email equal up to case (and
possibly edited other fields) leaves exactly one stored profile for
that email, carrying the latest field values, with the identifier of
the profile that existed first (the fresh identifier when none
matched initially). -/
theorem claim_C5_profile_upsert
    (t1 t2 : Nat) (s : AppState) (n2 e2 p2 a2 c2 pc2 : String)
    (hv1 : jsTrim s.orderName ≠ "" ∧ jsTrim s.orderEmail ≠ "")
    (hv2 : jsTrim n2 ≠ "" ∧ jsTrim e2 ≠ "")
    (hmatch : jsToLower (jsTrim e2) = jsToLower (jsTrim s.orderEmail))
    (hnodup : (s.users.map User.id).Nodup)
    (hfresh : ∀ u ∈ s.users, u.id ≠ "user-" ++ toString t1)
    (hinv : (s.users.filter (fun u =>
        jsToLower u.email = jsToLower (jsTrim s.orderEmail))).length ≤ 1) :
    (((handleSaveProfile t2
          (withContactForm (handleSaveProfile t1 s) n2 e2 p2 a2 c2 pc2)).users.filter
        (fun u => jsToLower u.email = jsToLower (jsTrim e2))).length = 1) ∧
    (∃ u ∈ (handleSaveProfile t2
          (withContactForm (handleSaveProfile t1 s) n2 e2 p2 a2 c2 pc2)).users,
        jsToLower u.email = jsToLower (jsTrim e2) ∧
        u.name = jsTrim n2 ∧ u.email = jsTrim e2 ∧
        u.phone = trimOpt p2 ∧ u.address = trimOpt a2 ∧
        u.city = trimOpt c2 ∧ u.postalCode = trimOpt pc2 ∧
        u.id = (match s.users.find? (fun u =>
            jsToLower u.email = jsToLower (jsTrim s.orderEmail)) with
          | some ex => ex.id
          | none => "user-" ++ toString t1)) := by
  have hveq1 : ¬(jsTrim s.orderName = "" ∨ jsTrim s.orderEmail = "") := by
    push_neg
    exact hv1
  cases hfind : s.users.find? (fun u => jsToLower u.email = jsToLower (jsTrim s.orderEmail)) with
  | none =>
    have hstep1 := handleSaveProfile_notFound t1 s hveq1 hfind
    have hP1none : ∀ u ∈ s.users, ¬ jsToLower u.email = jsToLower (jsTrim s.orderEmail) := by
      intro u hu
      have := List.find?_eq_none.mp hfind u hu
      simpa using this
    have hP2none : ∀ u ∈ s.users, ¬ jsToLower u.email = jsToLower (jsTrim e2) := by
      intro u hu
      rw [hmatch]
      exact hP1none u hu
    have hb1mail : (savedProfileUser ("user-" ++ toString t1) s).email
        = jsTrim s.orderEmail := rfl
    have hfind2 : (s.users ++ [savedProfileUser ("user-" ++ toString t1) s]).find?
        (fun u => jsToLower u.email = jsToLower (jsTrim e2))
        = some (savedProfileUser ("user-" ++ toString t1) s) := by
      rw [List.find?_append, List.find?_eq_none.mpr
        (by intro x hx; simpa using hP2none x hx)]
      simp [hb1mail, hmatch]
    have hveq2 : ¬(jsTrim (withContactForm (handleSaveProfile t1 s)
        n2 e2 p2 a2 c2 pc2).orderName = ""
        ∨ jsTrim (withContactForm (handleSaveProfile t1 s) n2 e2 p2 a2 c2 pc2).orderEmail
          = "") := by
      show ¬(jsTrim n2 = "" ∨ jsTrim e2 = "")
      push_neg
      exact hv2
    have hfind2' : (withContactForm (handleSaveProfile t1 s)
          n2 e2 p2 a2 c2 pc2).users.find?
        (fun u => jsToLower u.email
          = jsToLower (jsTrim (withContactForm (handleSaveProfile t1 s)
              n2 e2 p2 a2 c2 pc2).orderEmail))
        = some (savedProfileUser ("user-" ++ toString t1) s) := by
      show (handleSaveProfile t1 s).users.find?
        (fun u => jsToLower u.email = jsToLower (jsTrim e2)) = _
      rw [hstep1]
      exact hfind2
    have hstep2 := handleSaveProfile_found t2
      (withContactForm (handleSaveProfile t1 s) n2 e2 p2 a2 c2 pc2)
      (savedProfileUser ("user-" ++ toString t1) s) hveq2 hfind2'
    have husers : (handleSaveProfile t2
        (withContactForm (handleSaveProfile t1 s) n2 e2 p2 a2 c2 pc2)).users
        = s.users ++ [savedProfileUser ("user-" ++ toString t1)
            (withContactForm (handleSaveProfile t1 s) n2 e2 p2 a2 c2 pc2)] := by
      rw [hstep2]
      show ((handleSaveProfile t1 s).users).map _ = _
      rw [hstep1]
      show (s.users ++ [savedProfileUser ("user-" ++ toString t1) s]).map _ = _
      rw [List.map_append]
      congr 1
      · exact map_replace_eq_self s.users _ _ (fun u hu => hfresh u hu)
      · have hid : (savedProfileUser ("user-" ++ toString t1) s).id
            = "user-" ++ toString t1 := rfl
        simp [hid]
    rw [husers]
    constructor
    · rw [List.filter_append, List.filter_eq_nil_iff.mpr
        (by intro x hx; simpa using hP2none x hx)]
      simp [savedProfileUser, withContactForm]
    · refine ⟨savedProfileUser ("user-" ++ toString t1)
        (withContactForm (handleSaveProfile t1 s) n2 e2 p2 a2 c2 pc2), ?_, ?_⟩
      · simp
      · refine ⟨rfl, rfl, rfl, rfl, rfl, rfl, rfl, rfl⟩
  | some ex =>
    rcases List.find?_eq_some.mp hfind with ⟨hPex, as, bs, hsplit, has⟩
    have hPexP : jsToLower ex.email = jsToLower (jsTrim s.orderEmail) := by
      simpa using hPex
    have hasP : ∀ a ∈ as, ¬ jsToLower a.email = jsToLower (jsTrim s.orderEmail) := by
      intro a ha
      have := has a ha
      simpa using this
    have hids : ((as.map User.id) ++ (ex.id :: bs.map User.id)).Nodup := by
      rw [hsplit] at hnodup
      simpa using hnodup
    rcases List.nodup_append.mp hids with ⟨_, hnd2, hdisj⟩
    have has_ne : ∀ a ∈ as, a.id ≠ ex.id := by
      intro a ha heq
      exact absurd (by rw [heq]; exact List.mem_cons_self _ _)
        (hdisj (List.mem_map_of_mem User.id ha))
    have hbs_ne : ∀ b ∈ bs, b.id ≠ ex.id := by
      intro b hb heq
      have hexnotin := (List.nodup_cons.mp hnd2).1
      exact hexnotin (heq ▸ List.mem_map_of_mem User.id hb)
    have hstep1 := handleSaveProfile_found t1 s ex hveq1 hfind
    have husers1 : (handleSaveProfile t1 s).users
        = as ++ savedProfileUser ex.id s :: bs := by
      rw [hstep1]
      show s.users.map _ = _
      rw [hsplit, List.map_append, List.map_cons]
      congr 1
      · exact map_replace_eq_self as _ _ (fun u hu => has_ne u hu)
      · congr 1
        · rw [if_pos rfl]
        · exact map_replace_eq_self bs _ _ (fun u hu => hbs_ne u hu)
    have hasP2 : ∀ a ∈ as, ¬ jsToLower a.email = jsToLower (jsTrim e2) := by
      intro a ha
      rw [hmatch]
      exact hasP a ha
    have hfind2 : (as ++ savedProfileUser ex.id s :: bs).find?
        (fun u => jsToLower u.email = jsToLower (jsTrim e2))
        = some (savedProfileUser ex.id s) := by
      rw [List.find?_append, List.find?_eq_none.mpr
        (by intro x hx; simpa using hasP2 x hx)]
      have hpos : jsToLower (savedProfileUser ex.id s).email = jsToLower (jsTrim e2) := by
        show jsToLower (jsTrim s.orderEmail) = _
        rw [hmatch]
      simp [hpos]
    have hveq2 : ¬(jsTrim (withContactForm (handleSaveProfile t1 s)
        n2 e2 p2 a2 c2 pc2).orderName = ""
        ∨ jsTrim (withContactForm (handleSaveProfile t1 s) n2 e2 p2 a2 c2 pc2).orderEmail
          = "") := by
      show ¬(jsTrim n2 = "" ∨ jsTrim e2 = "")
      push_neg
      exact hv2
    have hfind2' : (withContactForm (handleSaveProfile t1 s)
          n2 e2 p2 a2 c2 pc2).users.find?
        (fun u => jsToLower u.email
          = jsToLower (jsTrim (withContactForm (handleSaveProfile t1 s)
              n2 e2 p2 a2 c2 pc2).orderEmail))
        = some (savedProfileUser ex.id s) := by
      show (handleSaveProfile t1 s).users.find?
        (fun u => jsToLower u.email = jsToLower (jsTrim e2)) = _
      rw [husers1]
      exact hfind2
    have hstep2 := handleSaveProfile_found t2
      (withContactForm (handleSaveProfile t1 s) n2 e2 p2 a2 c2 pc2)
      (savedProfileUser ex.id s) hveq2 hfind2'
    have husers2 : (handleSaveProfile t2
        (withContactForm (handleSaveProfile t1 s) n2 e2 p2 a2 c2 pc2)).users
        = as ++ savedProfileUser ex.id
            (withContactForm (handleSaveProfile t1 s) n2 e2 p2 a2 c2 pc2) :: bs := by
      rw [hstep2]
      show ((withContactForm (handleSaveProfile t1 s) n2 e2 p2 a2 c2 pc2).users).map _ = _
      show ((handleSaveProfile t1 s).users).map _ = _
      rw [husers1, List.map_append, List.map_cons]
      congr 1
      · exact map_replace_eq_self as _ _ (fun u hu => has_ne u hu)
      · congr 1
        · rw [if_pos rfl]
          rfl
        · exact map_replace_eq_self bs _ _ (fun u hu => hbs_ne u hu)
    have hbsP : ∀ b ∈ bs, ¬ jsToLower b.email = jsToLower (jsTrim s.orderEmail) := by
      have hcount : (s.users.filter (fun u =>
          jsToLower u.email = jsToLower (jsTrim s.orderEmail))).length ≤ 1 := hinv
      rw [hsplit, List.filter_append, List.filter_eq_nil_iff.mpr
        (by intro x hx; simpa using hasP x hx),
        List.filter_cons_of_pos (by simpa using hPexP)] at hcount
      simp only [List.nil_append, List.length_cons] at hcount
      have : (bs.filter (fun u =>
          jsToLower u.email = jsToLower (jsTrim s.orderEmail))).length = 0 := by omega
      intro b hb
      have hnil := List.length_eq_zero.mp this
      have := List.filter_eq_nil_iff.mp hnil b hb
      simpa using this
    have hbsP2 : ∀ b ∈ bs, ¬ jsToLower b.email = jsToLower (jsTrim e2) := by
      intro b hb
      rw [hmatch]
      exact hbsP b hb
    rw [husers2]
    constructor
    · rw [List.filter_append, List.filter_eq_nil_iff.mpr
        (by intro x hx; simpa using hasP2 x hx)]
      have hpos : jsToLower (savedProfileUser ex.id
          (withContactForm (handleSaveProfile t1 s) n2 e2 p2 a2 c2 pc2)).email
          = jsToLower (jsTrim e2) := rfl
      rw [List.filter_cons_of_pos (by simpa using hpos),
        List.filter_eq_nil_iff.mpr (by intro x hx; simpa using hbsP2 x hx)]
      rfl
    · refine ⟨savedProfileUser ex.id
        (withContactForm (handleSaveProfile t1 s) n2 e2 p2 a2 c2 pc2), ?_, ?_⟩
      · simp
      · exact ⟨rfl, rfl, rfl, rfl, rfl, rfl, rfl, rfl⟩

/-- Concrete instance of claim C5: saving email `A@x.com` into an empty
store, then saving `a@x.com` with edited fields, leaves exactly one
profile. -/
theorem claim_C5_profile_upsert_witness :
    ((jsTrim exC5State.orderName ≠ "" ∧ jsTrim exC5State.orderEmail ≠ "") ∧
      (jsTrim "Asha R" ≠ "" ∧ jsTrim "a@x.com" ≠ "") ∧
      jsToLower (jsTrim "a@x.com") = jsToLower (jsTrim exC5State.orderEmail) ∧
      (exC5State.users.map User.id).Nodup ∧
      (∀ u ∈ exC5State.users, u.id ≠ "user-" ++ toString 5) ∧
      (exC5State.users.filter (fun u =>
        jsToLower u.email = jsToLower (jsTrim exC5State.orderEmail))).length ≤ 1) ∧
    ((((handleSaveProfile 6
          (withContactForm (handleSaveProfile 5 exC5State)
            "Asha R" "a@x.com" "99" "" "" "")).users.filter
        (fun u => jsToLower u.email = jsToLower (jsTrim "a@x.com"))).length = 1) ∧
    (∃ u ∈ (handleSaveProfile 6
          (withContactForm (handleSaveProfile 5 exC5State)
            "Asha R" "a@x.com" "99" "" "" "")).users,
        jsToLower u.email = jsToLower (jsTrim "a@x.com") ∧
        u.name = jsTrim "Asha R" ∧ u.email = jsTrim "a@x.com" ∧
        u.phone = trimOpt "99" ∧ u.address = trimOpt "" ∧
        u.city = trimOpt "" ∧ u.postalCode = trimOpt "" ∧
        u.id = (match exC5State.users.find? (fun u =>
            jsToLower u.email = jsToLower (jsTrim exC5State.orderEmail)) with
          | some ex => ex.id
          | none => "user-" ++ toString 5))) :=
  ⟨⟨by decide, by decide, by decide, by decide, by decide, by decide⟩,
    claim_C5_profile_upsert 5 6 exC5State "Asha R" "a@x.com" "99" "" "" ""
      (by decide) (by decide) (by decide) (by decide) (by decide) (by decide)⟩

section PlaceOrderLemmas

theorem lookupQty_of_mem (cart : Cart) (kv : String × Nat)
    (hkeys : (cart.map Prod.fst).Nodup) (hmem : kv ∈ cart) :
    lookupQty cart kv.1 = kv.2 := by
  induction cart with
  | nil => cases hmem
  | cons hd rest ih =>
    obtain ⟨k, v⟩ := hd
    simp only [List.map_cons, List.nodup_cons] at hkeys
    rcases List.mem_cons.mp hmem with h | h
    · subst h
      rw [lookupQty_cons, if_pos rfl]
    · have hk : k ≠ kv.1 := by
        intro heq
        exact hkeys.1 (heq ▸ List.mem_map_of_mem Prod.fst h)
      rw [lookupQty_cons, if_neg hk]
      exact ih hkeys.2 h

theorem lookupQty_mem (cart : Cart) (k : String) (h : lookupQty cart k ≠ 0) :
    (k, lookupQty cart k) ∈ cart := by
  unfold lookupQty at *
  cases hf : cart.find? (fun kv => kv.1 = k) with
  | none => rw [hf] at h; exact absurd rfl h
  | some kv =>
    have hk : kv.1 = k := by simpa using List.find?_some hf
    have hm : kv ∈ cart := List.mem_of_find?_eq_some hf
    show (k, kv.2) ∈ cart
    have heq : (k, kv.2) = kv := by
      obtain ⟨a, b⟩ := kv
      simp only at hk ⊢
      rw [hk]
    rw [heq]
    exact hm

theorem selectedEntries_eq_nil_iff (s : AppState)
    (hkeys : (s.quantities.map Prod.fst).Nodup)
    (hsub : ∀ kv ∈ s.quantities, ∃ sp ∈ s.spices, sp.id = kv.1) :
    selectedEntries s = [] ↔ ¬∃ kv ∈ s.quantities, kv.2 > 0 := by
  constructor
  · intro hnil ⟨kv, hkv, hpos⟩
    obtain ⟨sp, hsp, hid⟩ := hsub kv hkv
    have hlk : lookupQty s.quantities sp.id = kv.2 := by
      rw [hid]
      exact lookupQty_of_mem s.quantities kv hkeys hkv
    have hx : (sp, lookupQty s.quantities sp.id)
        ∈ s.spices.map (fun spice => (spice, lookupQty s.quantities spice.id)) :=
      List.mem_map_of_mem _ hsp
    have := List.filter_eq_nil_iff.mp hnil _ hx
    rw [hlk] at this
    simp at this
    omega
  · intro hnone
    apply List.filter_eq_nil_iff.mpr
    intro x hx
    obtain ⟨sp, _, heq⟩ := List.mem_map.mp hx
    subst heq
    simp only [decide_eq_true_eq, gt_iff_lt, Nat.pos_iff_ne_zero]
    intro hne
    exact hnone ⟨(sp.id, lookupQty s.quantities sp.id),
      lookupQty_mem s.quantities sp.id hne, Nat.pos_of_ne_zero hne⟩

theorem handlePlaceOrder_reject_contact (now : Nat) (nowIso : String) (s : AppState)
    (h : jsTrim s.orderName = "" ∨ jsTrim s.orderEmail = "") :
    handlePlaceOrder now nowIso s =
      ({ s with
          orderStatus := none
          orderError := some "Please add your name and email so we can confirm your order." },
       none) := by
  unfold handlePlaceOrder
  rw [if_pos h]

theorem handlePlaceOrder_reject_empty (now : Nat) (nowIso : String) (s : AppState)
    (h1 : ¬(jsTrim s.orderName = "" ∨ jsTrim s.orderEmail = ""))
    (h2 : (selectedEntries s).length = 0) :
    handlePlaceOrder now nowIso s =
      ({ s with
          orderStatus := none
          orderError := some "Add at least one spice to your order." }, none) := by
  unfold handlePlaceOrder
  rw [if_neg h1, if_pos h2]

theorem handlePlaceOrder_accept_mail (now : Nat) (nowIso : String) (s : AppState)
    (h1 : ¬(jsTrim s.orderName = "" ∨ jsTrim s.orderEmail = ""))
    (h2 : ¬(selectedEntries s).length = 0)
    (h3 : jsTrim s.adminConfig.adminEmail ≠ "") :
    handlePlaceOrder now nowIso s =
      ({ s with
          orders := s.orders ++ [composedOrder now nowIso s]
          quantities := []
          orderNote := ""
          orderError := none
          orderStatus := some "Order drafted. Your email app should open with a ready to send order email to the Homelike admin." },
       some { recipient := jsTrim s.adminConfig.adminEmail
              subject := "New Homelike order " ++ (composedOrder now nowIso s).id
              body := String.intercalate "\n" (orderBodyLines (composedOrder now nowIso s)) }) := by
  unfold handlePlaceOrder
  rw [if_neg h1, if_neg h2]
  dsimp only
  rw [if_pos h3]

theorem handlePlaceOrder_accept_local (now : Nat) (nowIso : String) (s : AppState)
    (h1 : ¬(jsTrim s.orderName = "" ∨ jsTrim s.orderEmail = ""))
    (h2 : ¬(selectedEntries s).length = 0)
    (h3 : jsTrim s.adminConfig.adminEmail = "") :
    handlePlaceOrder now nowIso s =
      ({ s with
          orders := s.orders ++ [composedOrder now nowIso s]
          quantities := []
          orderNote := ""
          orderError := none
          orderStatus := some "Order saved in the local admin panel. Add an admin email in the Admin Panel to enable one click email sending." },
       none) := by
  unfold handlePlaceOrder
  rw [if_neg h1, if_neg h2]
  dsimp only
  rw [if_neg (not_not_intro h3)]

theorem handlePlaceOrder_accept_fields (now : Nat) (nowIso : String) (s : AppState)
    (h1 : ¬(jsTrim s.orderName = "" ∨ jsTrim s.orderEmail = ""))
    (h2 : ¬(selectedEntries s).length = 0) :
    (handlePlaceOrder now nowIso s).1.orders = s.orders ++ [composedOrder now nowIso s] ∧
    (handlePlaceOrder now nowIso s).1.quantities = [] ∧
    (handlePlaceOrder now nowIso s).1.orderNote = "" ∧
    (handlePlaceOrder now nowIso s).1.orderError = none ∧
    (handlePlaceOrder now nowIso s).1.orderName = s.orderName ∧
    (handlePlaceOrder now nowIso s).1.orderEmail = s.orderEmail ∧
    (handlePlaceOrder now nowIso s).1.orderPhone = s.orderPhone ∧
    (handlePlaceOrder now nowIso s).1.orderAddress = s.orderAddress ∧
    (handlePlaceOrder now nowIso s).1.orderCity = s.orderCity ∧
    (handlePlaceOrder now nowIso s).1.orderPostalCode = s.orderPostalCode ∧
    (handlePlaceOrder now nowIso s).1.paymentMethod = s.paymentMethod ∧
    (handlePlaceOrder now nowIso s).1.currentUserId = s.currentUserId ∧
    (handlePlaceOrder now nowIso s).1.users = s.users ∧
    (handlePlaceOrder now nowIso s).1.spices = s.spices ∧
    (handlePlaceOrder now nowIso s).1.adminConfig = s.adminConfig := by
  by_cases h3 : jsTrim s.adminConfig.adminEmail = ""
  · rw [handlePlaceOrder_accept_local now nowIso s h1 h2 h3]
    exact ⟨rfl, rfl, rfl, rfl, rfl, rfl, rfl, rfl, rfl, rfl, rfl, rfl, rfl, rfl, rfl⟩
  · rw [handlePlaceOrder_accept_mail now nowIso s h1 h2 h3]
    exact ⟨rfl, rfl, rfl, rfl, rfl, rfl, rfl, rfl, rfl, rfl, rfl, rfl, rfl, rfl, rfl⟩

theorem composedTotal_eq_sum (s : AppState) :
    composedTotal s = ((composedItems s).map OrderItem.subtotal).sum := by
  rw [composedTotal, foldl_add_eq_sum]
  simp

theorem composedItems_pairs_perm (s : AppState)
    (hkeys : (s.quantities.map Prod.fst).Nodup)
    (hpos : ∀ kv ∈ s.quantities, 0 < kv.2)
    (hids : (s.spices.map Spice.id).Nodup)
    (hres : ∀ kv ∈ s.quantities, ∃ sp ∈ s.spices, sp.id = kv.1) :
    ((composedItems s).map (fun it => (it.spiceId, it.quantity))).Perm s.quantities := by
  have hpairs : (composedItems s).map (fun it => (it.spiceId, it.quantity))
      = (selectedEntries s).map (fun x => (x.1.id, x.2)) := by
    rw [composedItems, List.map_map]
    rfl
  rw [hpairs]
  have hnodupL : ((selectedEntries s).map (fun x => (x.1.id, x.2))).Nodup := by
    apply List.Nodup.of_map Prod.fst
    rw [List.map_map]
    have hsub : ((selectedEntries s).map (Prod.fst ∘ fun x => (x.1.id, x.2))).Sublist
        ((s.spices.map (fun spice => (spice, lookupQty s.quantities spice.id))).map
          (Prod.fst ∘ fun x : Spice × Nat => (x.1.id, x.2))) :=
      (List.filter_sublist _).map _
    apply List.Nodup.sublist hsub
    rw [List.map_map]
    exact hids
  have hnodupR : s.quantities.Nodup := List.Nodup.of_map Prod.fst hkeys
  rw [List.perm_ext_iff_of_nodup hnodupL hnodupR]
  intro a
  constructor
  · intro ha
    obtain ⟨x, hx, heq⟩ := List.mem_map.mp ha
    have hx' := List.mem_filter.mp hx
    obtain ⟨sp, _, hsp⟩ := List.mem_map.mp hx'.1
    subst hsp
    have hqpos : lookupQty s.quantities sp.id ≠ 0 := by
      have := hx'.2
      simp at this
      omega
    have hm := lookupQty_mem s.quantities sp.id hqpos
    rw [← heq]
    exact hm
  · intro ha
    have hapos := hpos a ha
    obtain ⟨sp, hsp, hid⟩ := hres a ha
    have hlk : lookupQty s.quantities sp.id = a.2 := by
      rw [hid]
      exact lookupQty_of_mem s.quantities a hkeys ha
    apply List.mem_map.mpr
    refine ⟨(sp, lookupQty s.quantities sp.id), ?_, ?_⟩
    · apply List.mem_filter.mpr
      refine ⟨List.mem_map_of_mem _ hsp, ?_⟩
      simp only [hlk, gt_iff_lt, decide_eq_true_eq]
      exact hapos
    · rw [hlk, hid]

end PlaceOrderLemmas

/-- Claim C2: a submission is rejected with the missing-contact message
exactly when the trimmed name or email is blank (checked first), and
otherwise with the empty-cart message exactly when the cart has no
entry with positive quantity; every rejection leaves the order history,
the cart, every form field and the profile store unchanged, and hands
nothing to the mail composer.  The cart well-formedness hypotheses are
the JS-object invariant (distinct keys) and the UI invariant that cart
keys are catalog ids. -/
theorem claim_C2_rejections (now : Nat) (nowIso : String) (s : AppState)
    (hkeys : (s.quantities.map Prod.fst).Nodup)
    (hsub : ∀ kv ∈ s.quantities, ∃ sp ∈ s.spices, sp.id = kv.1) :
    ((handlePlaceOrder now nowIso s).1.orderError
        = some "Please add your name and email so we can confirm your order."
      ↔ (jsTrim s.orderName = "" ∨ jsTrim s.orderEmail = "")) ∧
    ((handlePlaceOrder now nowIso s).1.orderError
        = some "Add at least one spice to your order."
      ↔ (¬(jsTrim s.orderName = "" ∨ jsTrim s.orderEmail = "") ∧
          ¬∃ kv ∈ s.quantities, kv.2 > 0)) ∧
    ((handlePlaceOrder now nowIso s).1.orderError ≠ none →
      (handlePlaceOrder now nowIso s).1.orders = s.orders ∧
      (handlePlaceOrder now nowIso s).1.quantities = s.quantities ∧
      (handlePlaceOrder now nowIso s).1.users = s.users ∧
      (handlePlaceOrder now nowIso s).1.orderName = s.orderName ∧
      (handlePlaceOrder now nowIso s).1.orderEmail = s.orderEmail ∧
      (handlePlaceOrder now nowIso s).1.orderPhone = s.orderPhone ∧
      (handlePlaceOrder now nowIso s).1.orderAddress = s.orderAddress ∧
      (handlePlaceOrder now nowIso s).1.orderCity = s.orderCity ∧
      (handlePlaceOrder now nowIso s).1.orderPostalCode = s.orderPostalCode ∧
      (handlePlaceOrder now nowIso s).1.orderNote = s.orderNote ∧
      (handlePlaceOrder now nowIso s).1.paymentMethod = s.paymentMethod ∧
      (handlePlaceOrder now nowIso s).2 = none) := by
  by_cases hc : jsTrim s.orderName = "" ∨ jsTrim s.orderEmail = ""
  · rw [handlePlaceOrder_reject_contact now nowIso s hc]
    refine ⟨iff_of_true rfl hc, iff_of_false ?_ ?_, ?_⟩
    · intro h
      have : ("Please add your name and email so we can confirm your order." : String)
          = "Add at least one spice to your order." := by
        simpa using h
      exact absurd this (by decide)
    · intro h
      exact h.1 hc
    · intro _
      exact ⟨rfl, rfl, rfl, rfl, rfl, rfl, rfl, rfl, rfl, rfl, rfl, rfl⟩
  · by_cases hsel : (selectedEntries s).length = 0
    · rw [handlePlaceOrder_reject_empty now nowIso s hc hsel]
      refine ⟨iff_of_false ?_ hc, iff_of_true rfl ?_, ?_⟩
      · intro h
        have : ("Add at least one spice to your order." : String)
            = "Please add your name and email so we can confirm your order." := by
          simpa using h
        exact absurd this (by decide)
      · exact ⟨hc, (selectedEntries_eq_nil_iff s hkeys hsub).mp
          (List.length_eq_zero.mp hsel)⟩
      · intro _
        exact ⟨rfl, rfl, rfl, rfl, rfl, rfl, rfl, rfl, rfl, rfl, rfl, rfl⟩
    · have hfields := handlePlaceOrder_accept_fields now nowIso s hc hsel
      rw [hfields.2.2.2.1]
      refine ⟨iff_of_false (by simp) hc, iff_of_false (by simp) ?_, ?_⟩
      · intro ⟨_, hnone⟩
        exact hsel (List.length_eq_zero.mpr
          ((selectedEntries_eq_nil_iff s hkeys hsub).mpr hnone))
      · intro h
        exact absurd rfl h

/-- Concrete instance of claim C2: blank contact name with a filled
cart is rejected with the missing-contact message and leaves all state
untouched. -/
theorem claim_C2_rejections_witness :
    ((exC2State.quantities.map Prod.fst).Nodup ∧
      (∀ kv ∈ exC2State.quantities, ∃ sp ∈ exC2State.spices, sp.id = kv.1)) ∧
    (((handlePlaceOrder 4 "2026-01-02" exC2State).1.orderError
        = some "Please add your name and email so we can confirm your order."
      ↔ (jsTrim exC2State.orderName = "" ∨ jsTrim exC2State.orderEmail = "")) ∧
    ((handlePlaceOrder 4 "2026-01-02" exC2State).1.orderError
        = some "Add at least one spice to your order."
      ↔ (¬(jsTrim exC2State.orderName = "" ∨ jsTrim exC2State.orderEmail = "") ∧
          ¬∃ kv ∈ exC2State.quantities, kv.2 > 0)) ∧
    ((handlePlaceOrder 4 "2026-01-02" exC2State).1.orderError ≠ none →
      (handlePlaceOrder 4 "2026-01-02" exC2State).1.orders = exC2State.orders ∧
      (handlePlaceOrder 4 "2026-01-02" exC2State).1.quantities = exC2State.quantities ∧
      (handlePlaceOrder 4 "2026-01-02" exC2State).1.users = exC2State.users ∧
      (handlePlaceOrder 4 "2026-01-02" exC2State).1.orderName = exC2State.orderName ∧
      (handlePlaceOrder 4 "2026-01-02" exC2State).1.orderEmail = exC2State.orderEmail ∧
      (handlePlaceOrder 4 "2026-01-02" exC2State).1.orderPhone = exC2State.orderPhone ∧
      (handlePlaceOrder 4 "2026-01-02" exC2State).1.orderAddress
        = exC2State.orderAddress ∧
      (handlePlaceOrder 4 "2026-01-02" exC2State).1.orderCity = exC2State.orderCity ∧
      (handlePlaceOrder 4 "2026-01-02" exC2State).1.orderPostalCode
        = exC2State.orderPostalCode ∧
      (handlePlaceOrder 4 "2026-01-02" exC2State).1.orderNote = exC2State.orderNote ∧
      (handlePlaceOrder 4 "2026-01-02" exC2State).1.paymentMethod
        = exC2State.paymentMethod ∧
      (handlePlaceOrder 4 "2026-01-02" exC2State).2 = none)) :=
  ⟨⟨by decide, by decide⟩,
    claim_C2_rejections 4 "2026-01-02" exC2State (by decide) (by decide)⟩

/-- Claim C10 (frame property): an accepted submission clears exactly
the cart mapping and the free-text note; the contact fields, payment
method, active profile pointer, profile store, catalog and admin
config are unchanged. -/
theorem claim_C10_accept_frame (now : Nat) (nowIso : String) (s : AppState)
    (h1 : ¬(jsTrim s.orderName = "" ∨ jsTrim s.orderEmail = ""))
    (h2 : ¬(selectedEntries s).length = 0) :
    (handlePlaceOrder now nowIso s).1.quantities = [] ∧
    (handlePlaceOrder now nowIso s).1.orderNote = "" ∧
    (handlePlaceOrder now nowIso s).1.orderName = s.orderName ∧
    (handlePlaceOrder now nowIso s).1.orderEmail = s.orderEmail ∧
    (handlePlaceOrder now nowIso s).1.orderPhone = s.orderPhone ∧
    (handlePlaceOrder now nowIso s).1.orderAddress = s.orderAddress ∧
    (handlePlaceOrder now nowIso s).1.orderCity = s.orderCity ∧
    (handlePlaceOrder now nowIso s).1.orderPostalCode = s.orderPostalCode ∧
    (handlePlaceOrder now nowIso s).1.paymentMethod = s.paymentMethod ∧
    (handlePlaceOrder now nowIso s).1.currentUserId = s.currentUserId ∧
    (handlePlaceOrder now nowIso s).1.users = s.users ∧
    (handlePlaceOrder now nowIso s).1.spices = s.spices ∧
    (handlePlaceOrder now nowIso s).1.adminConfig = s.adminConfig := by
  obtain ⟨_, hq, hn, _, h5, h6, h7, h8, h9, h10, h11, h12, h13, h14, h15⟩ :=
    handlePlaceOrder_accept_fields now nowIso s h1 h2
  exact ⟨hq, hn, h5, h6, h7, h8, h9, h10, h11, h12, h13, h14, h15⟩

/-- Concrete instance of claim C10 at the two-product scenario state. -/
theorem claim_C10_accept_frame_witness :
    ((¬(jsTrim exC1State.orderName = "" ∨ jsTrim exC1State.orderEmail = "")) ∧
      ¬(selectedEntries exC1State).length = 0) ∧
    ((handlePlaceOrder 3 "2026-01-01" exC1State).1.quantities = [] ∧
     (handlePlaceOrder 3 "2026-01-01" exC1State).1.orderNote = "" ∧
     (handlePlaceOrder 3 "2026-01-01" exC1State).1.orderName = exC1State.orderName ∧
     (handlePlaceOrder 3 "2026-01-01" exC1State).1.orderEmail = exC1State.orderEmail ∧
     (handlePlaceOrder 3 "2026-01-01" exC1State).1.orderPhone = exC1State.orderPhone ∧
     (handlePlaceOrder 3 "2026-01-01" exC1State).1.orderAddress = exC1State.orderAddress ∧
     (handlePlaceOrder 3 "2026-01-01" exC1State).1.orderCity = exC1State.orderCity ∧
     (handlePlaceOrder 3 "2026-01-01" exC1State).1.orderPostalCode
        = exC1State.orderPostalCode ∧
     (handlePlaceOrder 3 "2026-01-01" exC1State).1.paymentMethod
        = exC1State.paymentMethod ∧
     (handlePlaceOrder 3 "2026-01-01" exC1State).1.currentUserId
        = exC1State.currentUserId ∧
     (handlePlaceOrder 3 "2026-01-01" exC1State).1.users = exC1State.users ∧
     (handlePlaceOrder 3 "2026-01-01" exC1State).1.spices = exC1State.spices ∧
     (handlePlaceOrder 3 "2026-01-01" exC1State).1.adminConfig = exC1State.adminConfig) :=
  ⟨⟨by decide, by decide⟩,
    claim_C10_accept_frame 3 "2026-01-01" exC1State (by decide) (by decide)⟩

/-- Claim C1: when the trimmed contact name and email are non-blank,
every cart key resolves in the catalog, and the cart is non-empty and
well-formed, the submission is accepted: the appended order has one
item per cart entry (a permutation of the cart as (id, quantity)
pairs), each item snapshots name and price from the catalog with
subtotal price × quantity, the total is the sum of the subtotals, and
afterwards the cart and the note are cleared. -/
theorem claim_C1_acceptance (now : Nat) (nowIso : String) (s : AppState)
    (hname : jsTrim s.orderName ≠ "") (hemail : jsTrim s.orderEmail ≠ "")
    (hkeys : (s.quantities.map Prod.fst).Nodup)
    (hpos : ∀ kv ∈ s.quantities, 0 < kv.2)
    (hids : (s.spices.map Spice.id).Nodup)
    (hres : ∀ kv ∈ s.quantities, ∃ sp ∈ s.spices, sp.id = kv.1)
    (hne : s.quantities ≠ []) :
    (handlePlaceOrder now nowIso s).1.orders
        = s.orders ++ [composedOrder now nowIso s] ∧
    ((composedOrder now nowIso s).items.map
        (fun it => (it.spiceId, it.quantity))).Perm s.quantities ∧
    (∀ it ∈ (composedOrder now nowIso s).items, ∃ sp ∈ s.spices,
        sp.id = it.spiceId ∧ it.name = sp.name ∧ it.unitPrice = sp.price ∧
        it.subtotal = sp.price * (it.quantity : Int)) ∧
    (composedOrder now nowIso s).total
        = ((composedOrder now nowIso s).items.map OrderItem.subtotal).sum ∧
    (handlePlaceOrder now nowIso s).1.quantities = [] ∧
    (handlePlaceOrder now nowIso s).1.orderNote = "" := by
  have h1 : ¬(jsTrim s.orderName = "" ∨ jsTrim s.orderEmail = "") := by
    push_neg
    exact ⟨hname, hemail⟩
  have h2 : ¬(selectedEntries s).length = 0 := by
    intro hz
    have hnil := List.length_eq_zero.mp hz
    have hnone := (selectedEntries_eq_nil_iff s hkeys hres).mp hnil
    cases hq : s.quantities with
    | nil => exact hne hq
    | cons kv rest =>
      exact hnone ⟨kv, by rw [hq]; exact List.mem_cons_self _ _,
        hpos kv (by rw [hq]; exact List.mem_cons_self _ _)⟩
  obtain ⟨horders, hq, hn, _⟩ := handlePlaceOrder_accept_fields now nowIso s h1 h2
  refine ⟨horders, composedItems_pairs_perm s hkeys hpos hids hres, ?_, ?_, hq, hn⟩
  · intro it hit
    obtain ⟨x, hx, heq⟩ := List.mem_map.mp hit
    have hx' := List.mem_filter.mp hx
    obtain ⟨sp, hsp, hspx⟩ := List.mem_map.mp hx'.1
    subst hspx
    subst heq
    exact ⟨sp, hsp, rfl, rfl, rfl, rfl⟩
  · exact composedTotal_eq_sum s

/-- Concrete instance of claim C1: cart `p1 ↦ 2, p2 ↦ 1` at unit prices
100 and 50 gives subtotals 200 and 50 and total 250, and clears the
cart and note. -/
theorem claim_C1_acceptance_witness :
    (jsTrim exC1State.orderName ≠ "" ∧ jsTrim exC1State.orderEmail ≠ "" ∧
      (exC1State.quantities.map Prod.fst).Nodup ∧
      (∀ kv ∈ exC1State.quantities, 0 < kv.2) ∧
      (exC1State.spices.map Spice.id).Nodup ∧
      (∀ kv ∈ exC1State.quantities, ∃ sp ∈ exC1State.spices, sp.id = kv.1) ∧
      exC1State.quantities ≠ []) ∧
    ((handlePlaceOrder 3 "2026-01-01" exC1State).1.orders
        = exC1State.orders ++ [composedOrder 3 "2026-01-01" exC1State] ∧
    ((composedOrder 3 "2026-01-01" exC1State).items.map
        (fun it => (it.spiceId, it.quantity))).Perm exC1State.quantities ∧
    (∀ it ∈ (composedOrder 3 "2026-01-01" exC1State).items, ∃ sp ∈ exC1State.spices,
        sp.id = it.spiceId ∧ it.name = sp.name ∧ it.unitPrice = sp.price ∧
        it.subtotal = sp.price * (it.quantity : Int)) ∧
    (composedOrder 3 "2026-01-01" exC1State).total
        = ((composedOrder 3 "2026-01-01" exC1State).items.map OrderItem.subtotal).sum ∧
    (handlePlaceOrder 3 "2026-01-01" exC1State).1.quantities = [] ∧
    (handlePlaceOrder 3 "2026-01-01" exC1State).1.orderNote = "") ∧
    (composedOrder 3 "2026-01-01" exC1State).total = 250 ∧
    (composedOrder 3 "2026-01-01" exC1State).items.map OrderItem.subtotal = [200, 50] :=
  ⟨⟨by decide, by decide, by decide, by decide, by decide, by decide, by decide⟩,
    claim_C1_acceptance 3 "2026-01-01" exC1State (by decide) (by decide) (by decide)
      (by decide) (by decide) (by decide) (by decide),
    by decide, by decide⟩

section ReceiptLemmas

theorem address_head (rest : String) :
    ("Address: " ++ rest).data.head? = some 'A' := rfl

theorem address_ne_of_head (rest : String) (t : String)
    (hne : t.data.head? ≠ some 'A') : "Address: " ++ rest ≠ t := by
  intro h
  exact hne (h ▸ address_head rest)

theorem intercalate_go_acc (s : String) (as : List String) : ∀ acc : String,
    ∃ t, String.intercalate.go acc s as = acc ++ t := by
  induction as with
  | nil =>
    intro acc
    exact ⟨"", (String.append_empty acc).symm⟩
  | cons a as ih =>
    intro acc
    obtain ⟨t, ht⟩ := ih (acc ++ s ++ a)
    refine ⟨s ++ a ++ t, ?_⟩
    show String.intercalate.go (acc ++ s ++ a) s as = _
    rw [ht]
    apply String.ext
    simp [String.data_append, List.append_assoc]

theorem orderLineItemsText_head (it : OrderItem) (rest : List OrderItem) :
    (orderLineItemsText (it :: rest)).data.head? = some '-' := by
  obtain ⟨t, ht⟩ := intercalate_go_acc "\n"
    (rest.map (fun item =>
      "- " ++ item.name ++ " x" ++ toString item.quantity ++ " @ " ++
        formatINR item.unitPrice ++ " = " ++ formatINR item.subtotal))
    ("- " ++ it.name ++ " x" ++ toString it.quantity ++ " @ " ++
      formatINR it.unitPrice ++ " = " ++ formatINR it.subtotal)
  show (String.intercalate.go _ "\n" _).data.head? = some '-'
  rw [ht]
  rfl

theorem orderAddressLines_eq_nil_iff (order : Order) :
    orderAddressLines order = [] ↔
      order.customerAddress = none ∧ order.customerCity = none ∧
        order.customerPostalCode = none := by
  unfold orderAddressLines
  cases ha : order.customerAddress <;> cases hc : order.customerCity <;>
    cases hp : order.customerPostalCode <;> simp

theorem address_ne_header (rest x : String) :
    "Address: " ++ rest ≠ "New Homelike order: " ++ x :=
  address_ne_of_head rest _
    (by rw [show ("New Homelike order: " ++ x).data.head? = some 'N' from rfl]; decide)

theorem address_ne_empty (rest : String) : "Address: " ++ rest ≠ "" :=
  address_ne_of_head rest "" (by decide)

theorem address_ne_customer (rest x : String) :
    "Address: " ++ rest ≠ "Customer: " ++ x :=
  address_ne_of_head rest _
    (by rw [show ("Customer: " ++ x).data.head? = some 'C' from rfl]; decide)

theorem address_ne_email (rest x : String) :
    "Address: " ++ rest ≠ "Email: " ++ x :=
  address_ne_of_head rest _
    (by rw [show ("Email: " ++ x).data.head? = some 'E' from rfl]; decide)

theorem address_ne_items_label (rest : String) : "Address: " ++ rest ≠ "Items:" :=
  address_ne_of_head rest "Items:" (by decide)

theorem address_ne_total (rest x : String) :
    "Address: " ++ rest ≠ "Total: " ++ x :=
  address_ne_of_head rest _
    (by rw [show ("Total: " ++ x).data.head? = some 'T' from rfl]; decide)

theorem address_ne_payment (rest x : String) :
    "Address: " ++ rest ≠ "Payment method: " ++ x :=
  address_ne_of_head rest _
    (by rw [show ("Payment method: " ++ x).data.head? = some 'P' from rfl]; decide)

theorem address_ne_closing (rest : String) :
    "Address: " ++ rest ≠ "This order was placed from the Homelike startup site." :=
  address_ne_of_head rest _ (by decide)

theorem address_ne_itemsText (rest : String) (items : List OrderItem) :
    "Address: " ++ rest ≠ orderLineItemsText items := by
  cases items with
  | nil =>
    exact address_ne_of_head rest _
      (by rw [show (orderLineItemsText []).data.head? = none from rfl]; decide)
  | cons it more =>
    exact address_ne_of_head rest _ (by rw [orderLineItemsText_head it more]; decide)

theorem address_notin_phonePart (rest : String) (o : Option String)
    (h : ("Address: " ++ rest)
      ∈ (match o with | some p => ["Phone: " ++ p] | none => ([] : List String))) :
    False := by
  cases o with
  | none => exact List.not_mem_nil _ h
  | some p =>
    have heq := List.mem_singleton.mp h
    have hhead := congrArg (fun s : String => s.data.head?) heq
    simp only at hhead
    rw [show ("Phone: " ++ p).data.head? = some 'P' from rfl] at hhead
    rw [address_head] at hhead
    exact absurd hhead (by decide)

theorem address_notin_notePart (rest : String) (o : Option String)
    (h : ("Address: " ++ rest)
      ∈ (match o with
          | some n => ["", "Customer note: " ++ n]
          | none => ([] : List String))) :
    False := by
  cases o with
  | none => exact List.not_mem_nil _ h
  | some n =>
    rcases List.mem_cons.mp h with heq | h2
    · exact address_ne_empty rest heq
    · have heq := List.mem_singleton.mp h2
      have hhead := congrArg (fun s : String => s.data.head?) heq
      simp only at hhead
      rw [show ("Customer note: " ++ n).data.head? = some 'C' from rfl] at hhead
      rw [address_head] at hhead
      exact absurd hhead (by decide)

theorem mem_bodyLines_address (order : Order) (rest : String)
    (h : ("Address: " ++ rest) ∈ orderBodyLines order) :
    orderAddressLines order ≠ [] ∧
    "Address: " ++ rest
      = "Address: " ++ String.intercalate ", " (orderAddressLines order) := by
  unfold orderBodyLines at h
  simp only [List.mem_append, List.mem_cons, List.not_mem_nil, or_false, or_assoc] at h
  rcases h with h | h | h | h | h | h | h | h | h | h | h | h | h | h | h
  · exact absurd h (address_ne_header rest order.id)
  · exact absurd h (address_ne_empty rest)
  · exact absurd h (address_ne_customer rest order.customerName)
  · exact absurd h (address_ne_email rest order.customerEmail)
  · exact absurd (address_notin_phonePart rest order.customerPhone h) id
  · by_cases hnil : orderAddressLines order = []
    · rw [if_neg (not_not_intro hnil)] at h
      exact absurd h (List.not_mem_nil _)
    · rw [if_pos hnil] at h
      exact ⟨hnil, List.mem_singleton.mp h⟩
  · exact absurd h (address_ne_empty rest)
  · exact absurd h (address_ne_items_label rest)
  · exact absurd h (address_ne_itemsText rest order.items)
  · exact absurd h (address_ne_empty rest)
  · exact absurd h (address_ne_total rest (formatINR order.total))
  · exact absurd h (address_ne_payment rest order.paymentMethod.render)
  · exact absurd (address_notin_notePart rest order.note h) id
  · exact absurd h (address_ne_empty rest)
  · exact absurd h (address_ne_closing rest)

theorem addressLine_mem_bodyLines (order : Order)
    (hnil : orderAddressLines order ≠ []) :
    ("Address: " ++ String.intercalate ", " (orderAddressLines order))
      ∈ orderBodyLines order := by
  unfold orderBodyLines
  rw [if_pos hnil]
  apply List.mem_append_left
  apply List.mem_append_left
  apply List.mem_append_left
  apply List.mem_append_left
  apply List.mem_append_right
  exact List.mem_singleton_self _

end ReceiptLemmas

/-- Claim C8 as amended: the receipt of an order contains an
`Address: `-prefixed line exactly when some address part is present,
and any such line is the single combined line joining the street with
the space-joined trimmed city–postal group using `", "`. -/
theorem claim_C8_amended_addressLine (order : Order) :
    ((∃ rest, ("Address: " ++ rest) ∈ orderBodyLines order) ↔
      ¬(order.customerAddress = none ∧ order.customerCity = none ∧
        order.customerPostalCode = none)) ∧
    (∀ rest, ("Address: " ++ rest) ∈ orderBodyLines order →
      "Address: " ++ rest
        = "Address: " ++ String.intercalate ", "
            ((match order.customerAddress with | some a => [a] | none => []) ++
             (if order.customerCity.isSome ∨ order.customerPostalCode.isSome then
                [jsTrim ((order.customerCity.getD "") ++ " "
                  ++ (order.customerPostalCode.getD ""))]
              else []))) := by
  constructor
  · constructor
    · intro ⟨rest, hmem⟩
      have hne := (mem_bodyLines_address order rest hmem).1
      intro hall
      exact hne ((orderAddressLines_eq_nil_iff order).mpr hall)
    · intro hparts
      have hnil : orderAddressLines order ≠ [] := by
        rw [Ne, orderAddressLines_eq_nil_iff]
        exact hparts
      exact ⟨String.intercalate ", " (orderAddressLines order),
        addressLine_mem_bodyLines order hnil⟩
  · intro rest hmem
    exact (mem_bodyLines_address order rest hmem).2

/-- Counterexample to claim C8 as stated: the accepted order from the
C8 scenario carries street `5 Lane`, city `Pune` and postal `411001`;
its receipt contains `Address: 5 Lane, Pune 411001` (city and postal
joined by a space) and does not contain the all-comma line
`Address: 5 Lane, Pune, 411001` that the claim describes. -/
theorem claim_C8_counterexample :
    (handlePlaceOrder 7 "2026-01-03" exC8State).1.orders = [exC8Order] ∧
    exC8Order.customerAddress = some "5 Lane" ∧
    exC8Order.customerCity = some "Pune" ∧
    exC8Order.customerPostalCode = some "411001" ∧
    specAddressLine exC8Order = "Address: 5 Lane, Pune, 411001" ∧
    specAddressLine exC8Order ∉ orderBodyLines exC8Order ∧
    ("Address: 5 Lane, Pune 411001") ∈ orderBodyLines exC8Order := by
  refine ⟨by decide, by decide, by decide, by decide, by decide, by decide, by decide⟩

/-- Claim C9: on acceptance the hand-off decision depends only on
whether the configured admin contact address is non-blank (per the
spec's trim-then-check convention for optional text): when non-blank,
the composed receipt is handed to the mail composer with that address
as recipient, a subject containing the order identifier, and the
joined receipt lines as body, and the caller is told the order was
drafted; otherwise nothing is handed off and the caller is told the
order was stored locally. -/
theorem claim_C9_handoff (now : Nat) (nowIso : String) (s : AppState)
    (h1 : ¬(jsTrim s.orderName = "" ∨ jsTrim s.orderEmail = ""))
    (h2 : ¬(selectedEntries s).length = 0) :
    ((handlePlaceOrder now nowIso s).2.isSome
      ↔ jsTrim s.adminConfig.adminEmail ≠ "") ∧
    (∀ m, (handlePlaceOrder now nowIso s).2 = some m →
      m.recipient = jsTrim s.adminConfig.adminEmail ∧
      m.subject = "New Homelike order " ++ (composedOrder now nowIso s).id ∧
      (∃ a b, m.subject = a ++ (composedOrder now nowIso s).id ++ b) ∧
      m.body = String.intercalate "\n" (orderBodyLines (composedOrder now nowIso s))) ∧
    (jsTrim s.adminConfig.adminEmail ≠ "" →
      (handlePlaceOrder now nowIso s).1.orderStatus
        = some "Order drafted. Your email app should open with a ready to send order email to the Homelike admin.") ∧
    (jsTrim s.adminConfig.adminEmail = "" →
      (handlePlaceOrder now nowIso s).2 = none ∧
      (handlePlaceOrder now nowIso s).1.orderStatus
        = some "Order saved in the local admin panel. Add an admin email in the Admin Panel to enable one click email sending.") := by
  by_cases h3 : jsTrim s.adminConfig.adminEmail = ""
  · rw [handlePlaceOrder_accept_local now nowIso s h1 h2 h3]
    refine ⟨?_, ?_, ?_, ?_⟩
    · simp [h3]
    · intro m hm
      cases hm
    · intro hne
      exact absurd h3 hne
    · intro _
      exact ⟨rfl, rfl⟩
  · rw [handlePlaceOrder_accept_mail now nowIso s h1 h2 h3]
    refine ⟨?_, ?_, ?_, ?_⟩
    · simp [h3]
    · intro m hm
      have hm' : ({ recipient := jsTrim s.adminConfig.adminEmail
                    subject := "New Homelike order " ++ (composedOrder now nowIso s).id
                    body := String.intercalate "\n"
                      (orderBodyLines (composedOrder now nowIso s)) } : MailMessage)
          = m := by
        simpa using hm
      rw [← hm']
      refine ⟨rfl, rfl, ⟨"New Homelike order ", "", ?_⟩, rfl⟩
      rw [String.append_empty]
    · intro _
      rfl
    · intro heq
      exact absurd heq h3

/-- Concrete instance of claim C9 at the configured-admin scenario. -/
theorem claim_C9_handoff_witness :
    ((¬(jsTrim exC9State.orderName = "" ∨ jsTrim exC9State.orderEmail = "")) ∧
      ¬(selectedEntries exC9State).length = 0) ∧
    (((handlePlaceOrder 8 "2026-01-04" exC9State).2.isSome
      ↔ jsTrim exC9State.adminConfig.adminEmail ≠ "") ∧
    (∀ m, (handlePlaceOrder 8 "2026-01-04" exC9State).2 = some m →
      m.recipient = jsTrim exC9State.adminConfig.adminEmail ∧
      m.subject = "New Homelike order " ++ (composedOrder 8 "2026-01-04" exC9State).id ∧
      (∃ a b, m.subject = a ++ (composedOrder 8 "2026-01-04" exC9State).id ++ b) ∧
      m.body = String.intercalate "\n"
        (orderBodyLines (composedOrder 8 "2026-01-04" exC9State))) ∧
    (jsTrim exC9State.adminConfig.adminEmail ≠ "" →
      (handlePlaceOrder 8 "2026-01-04" exC9State).1.orderStatus
        = some "Order drafted. Your email app should open with a ready to send order email to the Homelike admin.") ∧
    (jsTrim exC9State.adminConfig.adminEmail = "" →
      (handlePlaceOrder 8 "2026-01-04" exC9State).2 = none ∧
      (handlePlaceOrder 8 "2026-01-04" exC9State).1.orderStatus
        = some "Order saved in the local admin panel. Add an admin email in the Admin Panel to enable one click email sending.")) :=
  ⟨⟨by decide, by decide⟩,
    claim_C9_handoff 8 "2026-01-04" exC9State (by decide) (by decide)⟩

/-- Claim C7: for each of the four stores, saving its state and then
loading reproduces the collection, element order included (list
equality).  The hypotheses are the reachable-state invariants: every
optional admin-config field is present (the defaults set them all and
updates only replace them with strings), and the catalog is non-empty
(non-empty default, append-only creation, and the loader keeps the
default on an empty stored array). -/
theorem claim_C7_persistence_roundtrip (σ : Storage) (cfg : AdminConfig)
    (sp : List Spice) (us : List User) (ords : List Order)
    (hcfg : cfg.supportPhone.isSome ∧ cfg.upiId.isSome ∧ cfg.city.isSome ∧
      cfg.minimumOrderNote.isSome)
    (hsp : sp ≠ []) :
    loadAdmin (saveAdmin cfg σ) = cfg ∧
    loadSpices (saveSpices sp σ) = sp ∧
    loadUsers (saveUsers us σ) = us ∧
    loadOrders (saveOrders ords σ) = ords := by
  refine ⟨?_, ?_, rfl, rfl⟩
  · obtain ⟨h1, h2, h3, h4⟩ := hcfg
    obtain ⟨ae, bt, sph, up, ci, mn⟩ := cfg
    obtain ⟨a1, ha1⟩ := Option.isSome_iff_exists.mp h1
    obtain ⟨a2, ha2⟩ := Option.isSome_iff_exists.mp h2
    obtain ⟨a3, ha3⟩ := Option.isSome_iff_exists.mp h3
    obtain ⟨a4, ha4⟩ := Option.isSome_iff_exists.mp h4
    simp only at ha1 ha2 ha3 ha4
    subst ha1 ha2 ha3 ha4
    rfl
  · show (if sp.length > 0 then sp else defaultSpices) = sp
    rw [if_pos (List.length_pos.mpr hsp)]

/-- Concrete instance of claim C7 at the compiled-in defaults with one
profile and one order. -/
theorem claim_C7_persistence_roundtrip_witness :
    ((defaultAdminConfig.supportPhone.isSome ∧ defaultAdminConfig.upiId.isSome ∧
      defaultAdminConfig.city.isSome ∧ defaultAdminConfig.minimumOrderNote.isSome) ∧
      defaultSpices ≠ []) ∧
    (loadAdmin (saveAdmin defaultAdminConfig {}) = defaultAdminConfig ∧
    loadSpices (saveSpices defaultSpices {}) = defaultSpices ∧
    loadUsers (saveUsers [savedProfileUser "user-1" exC5State] {})
      = [savedProfileUser "user-1" exC5State] ∧
    loadOrders (saveOrders [exC8Order] {}) = [exC8Order]) :=
  ⟨⟨by decide, by decide⟩,
    claim_C7_persistence_roundtrip {} defaultAdminConfig defaultSpices
      [savedProfileUser "user-1" exC5State] [exC8Order] (by decide) (by decide)⟩

end Homelike

